import Mathlib

/-!
# ESPEasy scheduler: a shallow embedding of `src/Helpers/Scheduler.cpp`

The C++ functions of the scheduler are translated one by one into Lean
functions over an explicit scheduler state `Sched`.

* `unsigned long`, `unsigned int` are 32 bit wide on the target; they are
  natural numbers reduced with `u32` (modulo `2^32`).
* `int`, `long` are 32 bit wide; they are integers reduced with `i32`
  (two's complement wrap).
* the product `timePassedSince(timer) * -1` of `pause_rules_timer` overflows
  `long` when its operand is `-2^31`; C++ leaves that case undefined, and its
  outcome is a parameter of the build (`Env.overflowTimeLeft`,
  `Env.overflowTimeLeftPositive`) rather than a wrap.
* `millis()` is the field `Sched.millis`; external code may advance it.
* calls that leave the scheduler (plugin callbacks, the rule engine, hardware
  writes, periodic activities) are appended to `Sched.trace` and then handed to
  `Env.ext`, the reaction of the external code, which may change the state.
* logging (`addLog`) and the timing statistics macros have no effect on the
  scheduler state and are left out.
-/

namespace Scheduler

/-! ## Machine integers -/

/-- Conversion to `unsigned long`: the value modulo `2^32`. -/
def u32 (i : Int) : Nat := (i % 4294967296).toNat

/-- Conversion to `long` / `int`: two's complement wrap into `[-2^31, 2^31)`. -/
def i32 (i : Int) : Int := (i + 2147483648) % 4294967296 - 2147483648

/-- Modelled from the spec: `timePassedSince` lives in `ESPEasy_time_calc.h`,
which is not part of the source at hand. The spec asks for a wraparound-aware
subtraction of two clock readings: the signed 32 bit difference
`millis() - timestamp`. -/
def timePassedSince (millis timestamp : Nat) : Int := i32 ((millis : Int) - (timestamp : Int))

/-! ## Identifier codec -/

def TIMER_ID_SHIFT : Nat := 28

def SYSTEM_EVENT_QUEUE : Nat := 0
def CONST_INTERVAL_TIMER : Nat := 1
def PLUGIN_TASK_TIMER : Nat := 2
def TASK_DEVICE_TIMER : Nat := 3
def GPIO_TIMER : Nat := 4
def PLUGIN_TIMER : Nat := 5
def RULES_TIMER : Nat := 6

/-- The sub-id mask `(1 << TIMER_ID_SHIFT) - 1`. -/
def idMask : Nat := (1 <<< TIMER_ID_SHIFT) - 1

/-- Mix timer type with an id describing the scheduled job:
`(timerType << TIMER_ID_SHIFT) + id` in `unsigned long`. -/
def getMixedId (timerType id : Nat) : Nat :=
  ((timerType <<< TIMER_ID_SHIFT) + id) % 4294967296

/-- The two results of `decodeSchedulerId(mixed_id, timerType)`: the returned
sub-id and the value written to the reference argument `timerType`. -/
def decodeSchedulerId (mixed_id : Nat) : Nat × Nat :=
  let timerType := mixed_id >>> TIMER_ID_SHIFT
  let mask := idMask
  (mixed_id &&& mask, timerType)

/-! ## Interval algorithm -/

/-- The value left in `timer` by `setNextTimeInterval(timer, step)` when the
clock reads `millis`. -/
def setNextTimeInterval (millis timer step : Nat) : Nat :=
  let timer := (timer + step) % 4294967296
  let passed := timePassedSince millis timer
  if passed < 0 then
    timer
  else if u32 passed > step then
    (millis + step) % 4294967296
  else
    u32 ((millis : Int) + (((step : Int) - (u32 passed : Int)) % 4294967296))

/-- The reference definition of spec section 4.3, written from the spec's
words: with `elapsed = now - t`, leave `t` unchanged when `elapsed < 0`, reset
to `now + step` when `elapsed > step`, otherwise `now + (step - elapsed)`. -/
def specNextTimeInterval (now t step : Nat) : Nat :=
  let elapsed := timePassedSince now t
  if elapsed < 0 then
    t
  else if elapsed > (step : Int) then
    (now + step) % 4294967296
  else
    u32 ((now : Int) + ((step : Int) - elapsed))

/-! ## Finite maps as association lists

`std::map` and the timer registry are association lists; a key is looked up at
its first occurrence. -/

/-- Value stored for key `k`, if any. -/
def lookup {α : Type} : List (Nat × α) → Nat → Option α
  | [], _ => none
  | (k', v) :: rest, k => if k' = k then some v else lookup rest k

/-- Insert or overwrite: an existing key keeps its position. -/
def upsert {α : Type} : List (Nat × α) → Nat → α → List (Nat × α)
  | [], k, v => [(k, v)]
  | (k', v') :: rest, k, v => if k' = k then (k, v) :: rest else (k', v') :: upsert rest k v

/-- Remove every entry of key `k`. -/
def erase {α : Type} (m : List (Nat × α)) (k : Nat) : List (Nat × α) :=
  m.filter (fun p => p.1 != k)

/-! ## Records -/

/-- Modelled from the spec: the record type is declared in
`DataStructs/SystemTimerStruct.h`, outside the source at hand: one task/owner
index plus five signed integer parameters. -/
structure systemTimerStruct where
  TaskIndex : Nat
  Par1 : Int
  Par2 : Int
  Par3 : Int
  Par4 : Int
  Par5 : Int
deriving DecidableEq, Repr

/-- Modelled from the spec: the marker of an unset task index (the macro is
declared outside the source at hand). -/
def INVALID_TASK_INDEX : Nat := 255

/-- Modelled from the spec: the default-constructed record; firing an id with
no stored state is a no-op, so all five parameters start at zero. -/
def systemTimerStruct.fresh : systemTimerStruct :=
  { TaskIndex := INVALID_TASK_INDEX, Par1 := 0, Par2 := 0, Par3 := 0, Par4 := 0, Par5 := 0 }

/-- Modelled from the spec: the event payload handed to callbacks
(`DataStructs/ESPEasy_EventStruct.h` is outside the source at hand); only the
fields the scheduler touches are kept. -/
structure EventStruct where
  TaskIndex : Nat
  BaseVarIndex : Nat
  Par1 : Int
  Par2 : Int
  Par3 : Int
  Par4 : Int
  Par5 : Int
  Source : Nat
  sensorType : Nat
deriving DecidableEq, Repr

def VALUE_SOURCE_NOT_SET : Nat := 0
def VALUE_SOURCE_SYSTEM : Nat := 1

/-- The default-constructed event. -/
def EventStruct.fresh : EventStruct :=
  { TaskIndex := INVALID_TASK_INDEX, BaseVarIndex := 0, Par1 := 0, Par2 := 0, Par3 := 0,
    Par4 := 0, Par5 := 0, Source := VALUE_SOURCE_NOT_SET, sensorType := 0 }

/-- Calls that leave the scheduler. -/
inductive ExtCall where
  | saveToRTC
  | backgroundtasks
  | yield
  | Plugin_ptr (deviceIndex function : Nat) (event : EventStruct)
  | CPluginCall (index function : Nat) (event : EventStruct)
  | NPlugin_ptr (index function : Nat) (event : EventStruct)
  | LoadTaskSettings (taskIndex : Nat)
  | rulesProcessing (timerIndex count : Int)
  | digitalWrite (pinNumber pinStateValue : Nat)
  | SensorSendTask (task_index : Nat)
  | activity (id : Nat)
  | sendGratuitousARP
deriving DecidableEq, Repr

/-- The scheduler state: the clock, the registry `msecTimerHandler`, the store
`systemTimers`, the deferred queue `ScheduledEventQueue` and the globals the
file reads and writes. -/
structure Sched where
  millis : Nat
  msecTimerHandler : List (Nat × Nat)
  systemTimers : List (Nat × systemTimerStruct)
  ScheduledEventQueue : List (Nat × EventStruct)
  last_system_event_run : Nat
  lastMixedSchedulerId : Nat
  timermqtt_interval : Nat
  timer_gratuitous_arp_interval : Nat
  trace : List ExtCall
deriving DecidableEq, Repr

/-- What the file takes from its surroundings: macros and settings declared
outside the source at hand, validity checks and lookups of other modules,
`ext`, the reaction of external code to a call, and what the build makes of the
one signed overflow of the file: the product `timePassedSince(timer) * -1` in
`pause_rules_timer` is undefined in C++ when its operand is `-2^31`, and
`overflowTimeLeft` is the value the build then leaves in `timeLeft`,
`overflowTimeLeftPositive` the outcome of its test `timeLeft > 0`. -/
structure Env where
  RULES_TIMER_MAX : Nat
  VARS_PER_TASK : Nat
  PLUGIN_TIMER_IN : Nat
  PLUGIN_ONLY_TIMER_IN : Nat
  TIMER_GRATUITOUS_ARP_MAX : Nat
  validDeviceIndex : Nat → Bool
  validTaskIndex : Nat → Bool
  validUserVarIndex : Nat → Bool
  getDeviceIndex_from_TaskIndex : Nat → Nat
  getDeviceIndex : Nat → Nat
  Device_VType : Nat → Nat
  UseRules : Bool
  TaskDeviceEnabled : Nat → Bool
  TaskDeviceTimer : Nat → Nat
  gratuitousARP : Bool
  UseRTOSMultitasking : Bool
  compiledIn : Nat → Bool
  ext : ExtCall → Sched → Sched
  overflowTimeLeft : Int
  overflowTimeLeftPositive : Bool

/-- Perform an external call: record it, then let the external code react. -/
def call (env : Env) (c : ExtCall) (s : Sched) : Sched :=
  env.ext c { s with trace := s.trace ++ [c] }

/-! ## The earliest-due registry -/

/-- Modelled from the spec: `msecTimerHandler.registerAt` (the registry class
is declared outside the source at hand) upserts the pair (id, when). -/
def registerAt (r : List (Nat × Nat)) (id timer : Nat) : List (Nat × Nat) :=
  upsert r id timer

/-- Modelled from the spec: `msecTimerHandler.getTimerForId`, the point lookup
of the due time of an identifier. -/
def getTimerForId (r : List (Nat × Nat)) (id : Nat) : Option Nat :=
  lookup r id

/-- Modelled from the spec: among the pending entries that are due (their due
time is not after `now`, wraparound-aware) the most overdue one; the earliest
registered wins a tie. -/
def mostOverdue (now : Nat) : List (Nat × Nat) → Option (Nat × Nat)
  | [] => none
  | p :: rest =>
    match mostOverdue now rest with
    | none => if 0 ≤ timePassedSince now p.2 then some p else none
    | some q => if timePassedSince now q.2 ≤ timePassedSince now p.2 then some p else some q

/-- Modelled from the spec: `msecTimerHandler.getNextId(timer)`: the due entry
is removed from the registry and returned as (id, due time); (0, 0) and an
untouched registry when nothing is due. -/
def getNextId (now : Nat) (r : List (Nat × Nat)) : Nat × Nat × List (Nat × Nat) :=
  match mostOverdue now r with
  | none => (0, 0, r)
  | some p => (p.1, p.2, erase r p.1)

def setNewTimerAt (s : Sched) (id timer : Nat) : Sched :=
  { s with msecTimerHandler := registerAt s.msecTimerHandler id timer }

/-! ## The system timer store -/

/-- The record read by `systemTimers[id]`. -/
def readTimer (st : List (Nat × systemTimerStruct)) (id : Nat) : systemTimerStruct :=
  (lookup st id).getD systemTimerStruct.fresh

/-- The store after evaluating `systemTimers[id]`: `operator[]` of `std::map`
inserts a default-constructed record when the key is absent. -/
def touchTimer (st : List (Nat × systemTimerStruct)) (id : Nat) :
    List (Nat × systemTimerStruct) :=
  match lookup st id with
  | some _ => st
  | none => upsert st id systemTimerStruct.fresh

/-- The statement `systemTimers[id] = timer_data`. -/
def storeTimer (s : Sched) (id : Nat) (timer_data : systemTimerStruct) : Sched :=
  { s with systemTimers := upsert s.systemTimers id timer_data }

/-- The statement `systemTimers.erase(id)`. -/
def eraseTimer (s : Sched) (id : Nat) : Sched :=
  { s with systemTimers := erase s.systemTimers id }

/-! ## Interval timers -/

/-- Modelled from the spec: the identifiers of the well-known fixed-interval
activities (the `TIMER_...` macros are declared outside the source at hand);
distinct small integers. -/
def TIMER_20MSEC : Nat := 1
def TIMER_100MSEC : Nat := 2
def TIMER_1SEC : Nat := 3
def TIMER_30SEC : Nat := 4
def TIMER_MQTT : Nat := 5
def TIMER_STATISTICS : Nat := 6
def TIMER_GRATUITOUS_ARP : Nat := 7
def TIMER_MQTT_DELAY_QUEUE : Nat := 8
def TIMER_C001_DELAY_QUEUE : Nat := 9
def TIMER_C003_DELAY_QUEUE : Nat := 10
def TIMER_C004_DELAY_QUEUE : Nat := 11
def TIMER_C007_DELAY_QUEUE : Nat := 12
def TIMER_C008_DELAY_QUEUE : Nat := 13
def TIMER_C009_DELAY_QUEUE : Nat := 14
def TIMER_C010_DELAY_QUEUE : Nat := 15
def TIMER_C011_DELAY_QUEUE : Nat := 16
def TIMER_C012_DELAY_QUEUE : Nat := 17
def TIMER_C013_DELAY_QUEUE : Nat := 18
def TIMER_C014_DELAY_QUEUE : Nat := 19
def TIMER_C015_DELAY_QUEUE : Nat := 20
def TIMER_C016_DELAY_QUEUE : Nat := 21
def TIMER_C017_DELAY_QUEUE : Nat := 22
def TIMER_C018_DELAY_QUEUE : Nat := 23
def TIMER_C019_DELAY_QUEUE : Nat := 24
def TIMER_C020_DELAY_QUEUE : Nat := 25

def setIntervalTimerAt (s : Sched) (id newtimer : Nat) : Sched :=
  setNewTimerAt s (getMixedId CONST_INTERVAL_TIMER id) newtimer

def setIntervalTimerOverride (s : Sched) (id msecFromNow : Nat) : Sched :=
  let timer := setNextTimeInterval s.millis s.millis msecFromNow
  setNewTimerAt s (getMixedId CONST_INTERVAL_TIMER id) timer

def scheduleNextDelayQueue (s : Sched) (id nextTime : Nat) : Sched :=
  if nextTime ≠ 0 then setIntervalTimerAt s id nextTime else s

/-- The `interval` chosen by the switch of `setIntervalTimer(id, lasttimer)`. -/
def intervalOf (s : Sched) (id : Nat) : Nat :=
  if id = TIMER_20MSEC then 20
  else if id = TIMER_100MSEC then 100
  else if id = TIMER_1SEC then 1000
  else if id = TIMER_30SEC ∨ id = TIMER_STATISTICS then 30000
  else if id = TIMER_MQTT then s.timermqtt_interval
  else if id = TIMER_GRATUITOUS_ARP then s.timer_gratuitous_arp_interval
  else if TIMER_MQTT_DELAY_QUEUE ≤ id ∧ id ≤ TIMER_C020_DELAY_QUEUE then 1000
  else 0

/-- The two-argument `setIntervalTimer(id, lasttimer)`. -/
def setIntervalTimer (s : Sched) (id lasttimer : Nat) : Sched :=
  let interval := intervalOf s id
  let timer := setNextTimeInterval s.millis lasttimer interval
  setNewTimerAt s (getMixedId CONST_INTERVAL_TIMER id) timer

/-- The one-argument `setIntervalTimer(id)`. -/
def setIntervalTimerNow (s : Sched) (id : Nat) : Sched :=
  setIntervalTimer s id s.millis

def sendGratuitousARP_now (env : Env) (s : Sched) : Sched :=
  let s := call env ExtCall.sendGratuitousARP s
  if env.gratuitousARP then
    setIntervalTimerNow { s with timer_gratuitous_arp_interval := 100 } TIMER_GRATUITOUS_ARP
  else s

/-- The switch of `process_interval_timer`: the activity of the timer. Cases
under an `#ifdef` run when `compiledIn` holds for the id; the cases of C013,
C014, C019 and C020 are commented out in the source. -/
def runActivity (env : Env) (s : Sched) (id : Nat) : Sched :=
  if id = TIMER_20MSEC then call env (ExtCall.activity id) s
  else if id = TIMER_100MSEC then
    if !env.UseRTOSMultitasking then call env (ExtCall.activity id) s else s
  else if id = TIMER_1SEC ∨ id = TIMER_30SEC ∨ id = TIMER_STATISTICS then
    call env (ExtCall.activity id) s
  else if id = TIMER_GRATUITOUS_ARP then
    let doubled := (2 * s.timer_gratuitous_arp_interval) % 4294967296
    let s := { s with timer_gratuitous_arp_interval :=
      if doubled > env.TIMER_GRATUITOUS_ARP_MAX then env.TIMER_GRATUITOUS_ARP_MAX else doubled }
    if env.gratuitousARP then call env ExtCall.sendGratuitousARP s else s
  else if id = TIMER_MQTT ∨ id = TIMER_MQTT_DELAY_QUEUE
      ∨ (TIMER_C001_DELAY_QUEUE ≤ id ∧ id ≤ TIMER_C012_DELAY_QUEUE)
      ∨ (TIMER_C015_DELAY_QUEUE ≤ id ∧ id ≤ TIMER_C018_DELAY_QUEUE) then
    if env.compiledIn id then call env (ExtCall.activity id) s else s
  else s

def process_interval_timer (env : Env) (s : Sched) (id lasttimer : Nat) : Sched :=
  let s := setIntervalTimer s id lasttimer
  runActivity env s id

/-! ## Plugin task timer -/

/-- The sub-id `((Par1 << 8) + deviceIndex) & mask`; the sum is formed in `int`
and converted to `unsigned long`. -/
def createPluginTaskTimerId (deviceIndex : Nat) (Par1 : Int) : Nat :=
  let mask := idMask
  let mixed := u32 (i32 (i32 (Par1 * 256) + (deviceIndex : Int)))
  mixed &&& mask

def setPluginTaskTimer (env : Env) (s : Sched) (msecFromNow taskIndex : Nat)
    (Par1 Par2 Par3 Par4 Par5 : Int) : Sched :=
  let deviceIndex := env.getDeviceIndex_from_TaskIndex taskIndex
  if !env.validDeviceIndex deviceIndex then s
  else
    let mixedTimerId := getMixedId RULES_TIMER (createPluginTaskTimerId deviceIndex Par1)
    let timer_data : systemTimerStruct :=
      { systemTimerStruct.fresh with
        TaskIndex := taskIndex, Par1 := Par1, Par2 := Par2, Par3 := Par3, Par4 := Par4,
        Par5 := Par5 }
    let s := storeTimer s mixedTimerId timer_data
    setNewTimerAt s mixedTimerId ((s.millis + msecFromNow) % 4294967296)

def process_plugin_task_timer (env : Env) (s : Sched) (id : Nat) : Sched :=
  let mixedTimerId := getMixedId RULES_TIMER id
  let timer_data := readTimer s.systemTimers mixedTimerId
  let s := { s with systemTimers := touchTimer s.systemTimers mixedTimerId }
  let TempEvent : EventStruct :=
    { EventStruct.fresh with
      TaskIndex := timer_data.TaskIndex
      BaseVarIndex := timer_data.TaskIndex * env.VARS_PER_TASK
      Par1 := timer_data.Par1, Par2 := timer_data.Par2, Par3 := timer_data.Par3
      Par4 := timer_data.Par4, Par5 := timer_data.Par5
      Source := VALUE_SOURCE_SYSTEM }
  let deviceIndex := env.getDeviceIndex_from_TaskIndex timer_data.TaskIndex
  let s := eraseTimer s mixedTimerId
  if env.validDeviceIndex deviceIndex && env.validUserVarIndex TempEvent.BaseVarIndex then
    let TempEvent := { TempEvent with sensorType := env.Device_VType deviceIndex }
    call env (ExtCall.Plugin_ptr deviceIndex env.PLUGIN_TIMER_IN TempEvent) s
  else s

/-! ## Rules timer -/

def createRulesTimerId (timerIndex : Nat) : Nat :=
  let mask := idMask
  let mixed := timerIndex
  mixed &&& mask

def checkRulesTimerIndex (env : Env) (timerIndex : Nat) : Bool :=
  if timerIndex > env.RULES_TIMER_MAX || timerIndex == 0 then false else true

def setRulesTimer (env : Env) (s : Sched) (msecFromNow timerIndex : Nat)
    (recurringCount : Int) : Bool × Sched :=
  if !checkRulesTimerIndex env timerIndex then (false, s)
  else
    let mixedTimerId := getMixedId RULES_TIMER (createRulesTimerId timerIndex)
    let timer_data : systemTimerStruct :=
      { systemTimerStruct.fresh with
        Par1 := recurringCount, Par2 := i32 msecFromNow, Par3 := i32 timerIndex, Par4 := 0,
        Par5 := 1 }
    let timer_data :=
      if recurringCount > 0 then { timer_data with Par1 := i32 (timer_data.Par1 - 1) }
      else timer_data
    let timer_data :=
      if msecFromNow = 0 then { timer_data with Par1 := 0, Par5 := 0 } else timer_data
    let s := storeTimer s mixedTimerId timer_data
    (true, setNewTimerAt s mixedTimerId ((s.millis + msecFromNow) % 4294967296))

def process_rules_timer (env : Env) (s : Sched) (id lasttimer : Nat) : Sched :=
  let mixedTimerId := getMixedId RULES_TIMER id
  let timer_data := readTimer s.systemTimers mixedTimerId
  let s := { s with systemTimers := touchTimer s.systemTimers mixedTimerId }
  if timer_data.Par4 ≠ 0 then
    setNewTimerAt s mixedTimerId ((s.millis + 1000) % 4294967296)
  else
    let s :=
      if timer_data.Par1 ≠ 0 then
        let interval := u32 timer_data.Par2
        let timer := setNextTimeInterval s.millis lasttimer interval
        let s := setNewTimerAt s mixedTimerId timer
        let s :=
          if timer_data.Par1 > 0 then
            let cur := readTimer s.systemTimers mixedTimerId
            storeTimer s mixedTimerId { cur with Par1 := i32 (cur.Par1 - 1) }
          else s
        if timer_data.Par5 > 0 then
          let cur := readTimer s.systemTimers mixedTimerId
          storeTimer s mixedTimerId { cur with Par5 := i32 (cur.Par5 + 1) }
        else s
      else eraseTimer s mixedTimerId
    if timer_data.Par5 > 0 then
      if env.UseRules then call env (ExtCall.rulesProcessing timer_data.Par3 timer_data.Par5) s
      else s
    else s

/-- The product `timePassedSince(timer) * -1` overflows `long` when
`timePassedSince(timer)` is `-2^31`, that is when the due time lies exactly
`2^31` ms ahead of the clock. C++ leaves that case undefined: the value of
`timeLeft` and the outcome of the test `timeLeft > 0` are then taken from the
build (`Env.overflowTimeLeft`, `Env.overflowTimeLeftPositive`). In every other
case the product is exact. -/
def pause_rules_timer (env : Env) (s : Sched) (timerIndex : Nat) : Bool × Sched :=
  if !checkRulesTimerIndex env timerIndex then (false, s)
  else
    let mixedTimerId := getMixedId RULES_TIMER (createRulesTimerId timerIndex)
    match getTimerForId s.msecTimerHandler mixedTimerId with
    | some timer =>
      let cur := readTimer s.systemTimers mixedTimerId
      let s := { s with systemTimers := touchTimer s.systemTimers mixedTimerId }
      if cur.Par4 = 0 then
        let passed := timePassedSince s.millis timer
        let overflow : Bool := decide (passed = -2147483648)
        let timeLeft := if overflow then env.overflowTimeLeft else passed * -1
        let positive := if overflow then env.overflowTimeLeftPositive else decide (timeLeft > 0)
        if positive then
          (true, storeTimer s mixedTimerId { cur with Par4 := timeLeft })
        else (false, s)
      else (false, s)
    | none => (false, s)

def resume_rules_timer (env : Env) (s : Sched) (timerIndex : Nat) : Bool × Sched :=
  if !checkRulesTimerIndex env timerIndex then (false, s)
  else
    let mixedTimerId := getMixedId RULES_TIMER (createRulesTimerId timerIndex)
    match getTimerForId s.msecTimerHandler mixedTimerId with
    | some _ =>
      let cur := readTimer s.systemTimers mixedTimerId
      let s := { s with systemTimers := touchTimer s.systemTimers mixedTimerId }
      if cur.Par4 ≠ 0 then
        let s := setNewTimerAt s mixedTimerId (u32 ((s.millis : Int) + (u32 cur.Par4 : Int)))
        (true, storeTimer s mixedTimerId { cur with Par4 := 0 })
      else (false, s)
    | none => (false, s)

/-! ## Plugin timer -/

def createPluginTimerId (deviceIndex : Nat) (Par1 : Int) : Nat :=
  let mask := idMask
  let mixed := u32 (i32 (i32 (Par1 * 256) + (deviceIndex : Int)))
  mixed &&& mask

def setPluginTimer (env : Env) (s : Sched) (msecFromNow pluginID : Nat)
    (Par1 Par2 Par3 Par4 Par5 : Int) : Sched :=
  let deviceIndex := env.getDeviceIndex pluginID
  if !env.validDeviceIndex deviceIndex then s
  else
    let mixedTimerId := getMixedId PLUGIN_TIMER (createPluginTimerId deviceIndex Par1)
    let timer_data : systemTimerStruct :=
      { systemTimerStruct.fresh with
        Par1 := Par1, Par2 := Par2, Par3 := Par3, Par4 := Par4, Par5 := Par5 }
    let s := storeTimer s mixedTimerId timer_data
    setNewTimerAt s mixedTimerId ((s.millis + msecFromNow) % 4294967296)

def process_plugin_timer (env : Env) (s : Sched) (id : Nat) : Sched :=
  let mixedTimerId := getMixedId PLUGIN_TIMER id
  let timer_data := readTimer s.systemTimers mixedTimerId
  let s := { s with systemTimers := touchTimer s.systemTimers mixedTimerId }
  let deviceIndex := ((1 <<< 8) - 1) &&& id
  let TempEvent : EventStruct :=
    { EventStruct.fresh with
      Par1 := timer_data.Par1, Par2 := timer_data.Par2, Par3 := timer_data.Par3
      Par4 := timer_data.Par4, Par5 := timer_data.Par5
      Source := VALUE_SOURCE_SYSTEM }
  let s := eraseTimer s mixedTimerId
  if env.validDeviceIndex deviceIndex then
    call env (ExtCall.Plugin_ptr deviceIndex env.PLUGIN_ONLY_TIMER_IN TempEvent) s
  else s

/-! ## GPIO timer -/

def createGPIOTimerId (pinNumber : Nat) (Par1 : Int) : Nat :=
  let mask := idMask
  let mixed := u32 (i32 (i32 (Par1 * 256) + (pinNumber : Int)))
  mixed &&& mask

/-- The first argument of `createGPIOTimerId` is a `byte`: `Par1` is cut to
its low eight bits. -/
def setGPIOTimer (s : Sched) (msecFromNow : Nat) (Par1 Par2 : Int) : Sched :=
  let systemTimerId := createGPIOTimerId (u32 Par1 % 256) Par2
  setNewTimerAt s (getMixedId GPIO_TIMER systemTimerId) ((s.millis + msecFromNow) % 4294967296)

def process_gpio_timer (env : Env) (s : Sched) (id : Nat) : Sched :=
  let pinNumber := id &&& 255
  let pinStateValue := (id >>> 8) % 256
  call env (ExtCall.digitalWrite pinNumber pinStateValue) s

/-! ## Task device timer -/

def schedule_task_device_timer (env : Env) (s : Sched) (task_index runAt : Nat) : Sched :=
  if !env.validTaskIndex task_index then s
  else
    let DeviceIndex := env.getDeviceIndex_from_TaskIndex task_index
    if !env.validDeviceIndex DeviceIndex then s
    else if env.TaskDeviceEnabled task_index then
      setNewTimerAt s (getMixedId TASK_DEVICE_TIMER task_index) runAt
    else s

def process_task_device_timer (env : Env) (s : Sched) (task_index lasttimer : Nat) : Sched :=
  if !env.validTaskIndex task_index then s
  else
    let newtimer := env.TaskDeviceTimer task_index
    let s :=
      if newtimer ≠ 0 then
        let newtimer := (lasttimer + (newtimer * 1000) % 4294967296) % 4294967296
        schedule_task_device_timer env s task_index newtimer
      else s
    call env (ExtCall.SensorSendTask task_index) s

/-! ## Deferred system events -/

/-- Modelled from the spec: the plugin-class discriminators (the enumeration
`PluginPtrType` is declared outside the source at hand). -/
def TaskPluginEnum : Nat := 0
def ControllerPluginEnum : Nat := 1
def NotificationPluginEnum : Nat := 2

/-- The three-argument `createSystemEventMixedId(ptr_type, Index, Function)`. -/
def createSystemEventMixedId (ptr_type Index Function : Nat) : Nat :=
  let subId := ptr_type
  let subId := ((subId <<< 8) + Index) % 4294967296
  let subId := ((subId <<< 8) + Function) % 4294967296
  getMixedId SYSTEM_EVENT_QUEUE subId

def schedule_event_timer (s : Sched) (ptr_type Index Function : Nat) (event : EventStruct) :
    Sched :=
  let mixedId := createSystemEventMixedId ptr_type Index Function
  { s with ScheduledEventQueue := s.ScheduledEventQueue ++ [(mixedId, event)] }

def schedule_plugin_task_event_timer (env : Env) (s : Sched) (DeviceIndex Function : Nat)
    (event : EventStruct) : Sched :=
  if env.validDeviceIndex DeviceIndex then
    schedule_event_timer s TaskPluginEnum DeviceIndex Function event
  else s

def schedule_notification_event_timer (s : Sched) (NotificationProtocolIndex Function : Nat)
    (event : EventStruct) : Sched :=
  schedule_event_timer s NotificationPluginEnum NotificationProtocolIndex Function event

/-- The front entry is dispatched and popped. Its payload is read on entry:
in the task-plugin case `LoadTaskSettings` is taken not to replace the front
entry before the plugin callback is given its payload. -/
def process_system_event_queue (env : Env) (s : Sched) : Sched :=
  match s.ScheduledEventQueue with
  | [] => s
  | (id, event) :: _ =>
    let Function := id &&& 255
    let Index := (id >>> 8) &&& 255
    let ptr_type := (id >>> 16) &&& 255
    let s :=
      if ptr_type = TaskPluginEnum then
        let s := call env (ExtCall.LoadTaskSettings event.TaskIndex) s
        call env (ExtCall.Plugin_ptr Index Function event) s
      else if ptr_type = ControllerPluginEnum then
        call env (ExtCall.CPluginCall Index Function event) s
      else if ptr_type = NotificationPluginEnum then
        call env (ExtCall.NPlugin_ptr Index Function event) s
      else s
    { s with ScheduledEventQueue := s.ScheduledEventQueue.tail }

/-! ## The dispatch loop -/

/-- The switch of `handle_schedule` on the decoded timer type. -/
def routeTimer (env : Env) (s : Sched) (timerType id timer : Nat) : Sched :=
  if timerType = CONST_INTERVAL_TIMER then process_interval_timer env s id timer
  else if timerType = PLUGIN_TASK_TIMER then process_plugin_task_timer env s id
  else if timerType = PLUGIN_TIMER then process_plugin_timer env s id
  else if timerType = RULES_TIMER then process_rules_timer env s id timer
  else if timerType = TASK_DEVICE_TIMER then process_task_device_timer env s id timer
  else if timerType = GPIO_TIMER then process_gpio_timer env s id
  else s

def handle_schedule (env : Env) (s : Sched) : Sched :=
  let next :=
    if timePassedSince s.millis s.last_system_event_run < 500 then
      getNextId s.millis s.msecTimerHandler
    else (0, 0, s.msecTimerHandler)
  let mixed_id := next.1
  let timer := next.2.1
  let s := { s with msecTimerHandler := next.2.2 }
  let s :=
    if s.lastMixedSchedulerId ≠ mixed_id then
      call env ExtCall.saveToRTC { s with lastMixedSchedulerId := mixed_id }
    else s
  if mixed_id = 0 then
    let s := call env ExtCall.backgroundtasks s
    let s := process_system_event_queue env s
    { s with last_system_event_run := s.millis }
  else
    let decoded := decodeSchedulerId mixed_id
    let id := decoded.1
    let timerType := decoded.2
    let s := call env ExtCall.yield s
    routeTimer env s timerType id timer

/-- External code that does not react: calls are recorded only. -/
def inertExt : ExtCall → Sched → Sched := fun _ s => s

/-- A concrete environment for evaluating the code: eight rules timers, twelve
tasks of four values each, task `t` owned by device `t + 1`, rules enabled,
external code inert, and a build in which the overflowing product wraps to
`-2^31`, so that its test `timeLeft > 0` fails. -/
def demoEnv : Env :=
  { RULES_TIMER_MAX := 8
    VARS_PER_TASK := 4
    PLUGIN_TIMER_IN := 12
    PLUGIN_ONLY_TIMER_IN := 22
    TIMER_GRATUITOUS_ARP_MAX := 5000
    validDeviceIndex := fun d => decide (d < 64)
    validTaskIndex := fun t => decide (t < 12)
    validUserVarIndex := fun v => decide (v < 48)
    getDeviceIndex_from_TaskIndex := fun t => t + 1
    getDeviceIndex := fun p => p
    Device_VType := fun _ => 1
    UseRules := true
    TaskDeviceEnabled := fun _ => true
    TaskDeviceTimer := fun _ => 60
    gratuitousARP := false
    UseRTOSMultitasking := false
    compiledIn := fun _ => true
    ext := inertExt
    overflowTimeLeft := -2147483648
    overflowTimeLeftPositive := false }

/-- The scheduler state after start-up at clock reading `now`: nothing
registered, nothing stored, nothing queued. -/
def emptySched (now : Nat) : Sched :=
  { millis := now
    msecTimerHandler := []
    systemTimers := []
    ScheduledEventQueue := []
    last_system_event_run := now
    lastMixedSchedulerId := 0
    timermqtt_interval := 250
    timer_gratuitous_arp_interval := 5000
    trace := [] }

/-- One firing of the rules timer `timerIndex` by the dispatch loop at clock
reading `now`: the registry hands out the pending entry, removing it, and
`process_rules_timer` is applied to the sub-id and the due time. Without a
pending entry nothing fires. -/
def fireRulesTimer (env : Env) (timerIndex : Nat) (s : Sched) (now : Nat) : Sched :=
  let s := { s with millis := now }
  let mixedTimerId := getMixedId RULES_TIMER (createRulesTimerId timerIndex)
  match getTimerForId s.msecTimerHandler mixedTimerId with
  | some timer =>
    process_rules_timer env
      { s with msecTimerHandler := erase s.msecTimerHandler mixedTimerId }
      (createRulesTimerId timerIndex) timer
  | none => s

/-- The identifier under which the rules timer `timerIndex` is registered and
stored. -/
def rulesTimerId (timerIndex : Nat) : Nat :=
  getMixedId RULES_TIMER (createRulesTimerId timerIndex)

/-- The record `setRulesTimer(msecFromNow, timerIndex, recurringCount)` stores
for a valid timer index. -/
def rulesTimerData (msecFromNow timerIndex : Nat) (recurringCount : Int) : systemTimerStruct :=
  { TaskIndex := INVALID_TASK_INDEX
    Par1 := if msecFromNow = 0 then 0
      else if recurringCount > 0 then i32 (recurringCount - 1) else recurringCount
    Par2 := i32 msecFromNow
    Par3 := i32 timerIndex
    Par4 := 0
    Par5 := if msecFromNow = 0 then 0 else 1 }

/-- A rules timer is set and then fired by the dispatch loop at the clock
readings `times`, one firing per reading. -/
def rulesTimerRun (env : Env) (s0 : Sched) (msecFromNow timerIndex : Nat) (recurringCount : Int)
    (times : List Nat) : Sched :=
  times.foldl (fireRulesTimer env timerIndex)
    (setRulesTimer env s0 msecFromNow timerIndex recurringCount).2

/-- A rules timer is set at the clock reading of `s0` and paused `e` ms
later. -/
def rulesTimerPaused (env : Env) (s0 : Sched) (msecFromNow timerIndex : Nat)
    (recurringCount : Int) (e : Nat) : Bool × Sched :=
  pause_rules_timer env
    { (setRulesTimer env s0 msecFromNow timerIndex recurringCount).2 with
      millis := (s0.millis + e) % 4294967296 }
    timerIndex

/-- After `rulesTimerPaused` the dispatch loop fires the paused timer at the
clock readings `polls`; then the timer is resumed at clock reading `T1`. -/
def rulesTimerResumed (env : Env) (s0 : Sched) (msecFromNow timerIndex : Nat)
    (recurringCount : Int) (e : Nat) (polls : List Nat) (T1 : Nat) : Bool × Sched :=
  resume_rules_timer env
    { polls.foldl (fireRulesTimer env timerIndex)
        (rulesTimerPaused env s0 msecFromNow timerIndex recurringCount e).2 with
      millis := T1 % 4294967296 }
    timerIndex

/-- A deferred event as handed to `schedule_event_timer`: the plugin class, the
index within the class, the function code and the payload. -/
structure DeferredEvent where
  ptr_type : Nat
  Index : Nat
  Function : Nat
  event : EventStruct
deriving DecidableEq, Repr

/-- The queue entry that `schedule_event_timer` appends for a deferred event. -/
def DeferredEvent.entry (e : DeferredEvent) : Nat × EventStruct :=
  (createSystemEventMixedId e.ptr_type e.Index e.Function, e.event)

/-- Dispatch of a deferred event in the spec's words: exactly one callback, of
the family named by the plugin class, at the event's index with the event's
function code and payload (a task plugin has its task settings loaded
first). -/
def DeferredEvent.dispatch (e : DeferredEvent) : List ExtCall :=
  if e.ptr_type = TaskPluginEnum then
    [ExtCall.LoadTaskSettings e.event.TaskIndex, ExtCall.Plugin_ptr e.Index e.Function e.event]
  else if e.ptr_type = ControllerPluginEnum then
    [ExtCall.CPluginCall e.Index e.Function e.event]
  else if e.ptr_type = NotificationPluginEnum then
    [ExtCall.NPlugin_ptr e.Index e.Function e.event]
  else []

/-- A well-typed deferred event: one of the three plugin classes, index and
function code are bytes. -/
def DeferredEvent.wellTyped (e : DeferredEvent) : Prop :=
  (e.ptr_type = TaskPluginEnum ∨ e.ptr_type = ControllerPluginEnum
      ∨ e.ptr_type = NotificationPluginEnum)
    ∧ e.Index < 256 ∧ e.Function < 256

instance (e : DeferredEvent) : Decidable e.wellTyped := by
  unfold DeferredEvent.wellTyped
  infer_instance

/-- The events `es` are appended one after the other by `schedule_event_timer`. -/
def scheduleEvents (s : Sched) (es : List DeferredEvent) : Sched :=
  es.foldl (fun s e => schedule_event_timer s e.ptr_type e.Index e.Function e.event) s

/-- The result of `k` successive calls of `process_system_event_queue`. -/
def drainQueue (env : Env) : Nat → Sched → Sched
  | 0, s => s
  | k + 1, s => drainQueue env k (process_system_event_queue env s)

/-- The identifier under which the device-poll timer of a task is registered. -/
def taskDeviceTimerId (task_index : Nat) : Nat :=
  getMixedId TASK_DEVICE_TIMER task_index

/-- One fire cycle of the device-poll timer of `task_index` at clock reading
`now`: the registry hands out the pending entry, removing it, and
`process_task_device_timer` is applied to the task and the due time. Without a
pending entry nothing fires. -/
def fireTaskDeviceTimer (env : Env) (task_index : Nat) (s : Sched) (now : Nat) : Sched :=
  let s := { s with millis := now }
  let mixedTimerId := getMixedId TASK_DEVICE_TIMER task_index
  match getTimerForId s.msecTimerHandler mixedTimerId with
  | some timer =>
    process_task_device_timer env
      { s with msecTimerHandler := erase s.msecTimerHandler mixedTimerId } task_index timer
  | none => s

/-- The device-poll timer of a task is seeded at `runAt` and then fired at the
clock readings `times`, one fire cycle per reading. -/
def taskDeviceRun (env : Env) (s0 : Sched) (task_index runAt : Nat) (times : List Nat) : Sched :=
  times.foldl (fireTaskDeviceTimer env task_index)
    (schedule_task_device_timer env s0 task_index runAt)

/-- An environment like `demoEnv` whose tasks are polled every `2^29`
seconds: `1000 * 2^29` is a multiple of `2^32`. -/
def wrapEnv : Env :=
  { demoEnv with TaskDeviceTimer := fun _ => 536870912 }

/-- Number of entries an association list holds for key `k`. -/
def countKey {α : Type} (m : List (Nat × α)) (k : Nat) : Nat :=
  (m.filter (fun p => p.1 == k)).length

/-- The callbacks that the switch of `process_system_event_queue` invokes for
the front entry of a queue; none for an empty queue. -/
def frontCalls : List (Nat × EventStruct) → List ExtCall
  | [] => []
  | (id, event) :: _ =>
    let Function := id &&& 255
    let Index := (id >>> 8) &&& 255
    let ptr_type := (id >>> 16) &&& 255
    if ptr_type = TaskPluginEnum then
      [ExtCall.LoadTaskSettings event.TaskIndex, ExtCall.Plugin_ptr Index Function event]
    else if ptr_type = ControllerPluginEnum then [ExtCall.CPluginCall Index Function event]
    else if ptr_type = NotificationPluginEnum then [ExtCall.NPlugin_ptr Index Function event]
    else []

/-- The call that mirrors the chosen identifier into the RTC slot, made when
the identifier differs from the mirrored one. -/
def rtcCalls (s : Sched) (mixed_id : Nat) : List ExtCall :=
  if s.lastMixedSchedulerId ≠ mixed_id then [ExtCall.saveToRTC] else []

/-- Calls that invoke a callback of one of the three plugin families. -/
def isPluginCallback : ExtCall → Bool
  | ExtCall.Plugin_ptr _ _ _ => true
  | ExtCall.CPluginCall _ _ _ => true
  | ExtCall.NPlugin_ptr _ _ _ => true
  | _ => false

/-- The one callback a deferred event is meant for: the callback of its plugin
family at its index with its function code and payload. -/
def DeferredEvent.callback (e : DeferredEvent) : ExtCall :=
  if e.ptr_type = TaskPluginEnum then ExtCall.Plugin_ptr e.Index e.Function e.event
  else if e.ptr_type = ControllerPluginEnum then ExtCall.CPluginCall e.Index e.Function e.event
  else ExtCall.NPlugin_ptr e.Index e.Function e.event

/-- The identifiers of the delay queues: the MQTT queue and the controller
queues C001 to C020. -/
def delayQueueIds : List Nat :=
  [TIMER_MQTT_DELAY_QUEUE, TIMER_C001_DELAY_QUEUE, TIMER_C003_DELAY_QUEUE,
    TIMER_C004_DELAY_QUEUE, TIMER_C007_DELAY_QUEUE, TIMER_C008_DELAY_QUEUE,
    TIMER_C009_DELAY_QUEUE, TIMER_C010_DELAY_QUEUE, TIMER_C011_DELAY_QUEUE,
    TIMER_C012_DELAY_QUEUE, TIMER_C013_DELAY_QUEUE, TIMER_C014_DELAY_QUEUE,
    TIMER_C015_DELAY_QUEUE, TIMER_C016_DELAY_QUEUE, TIMER_C017_DELAY_QUEUE,
    TIMER_C018_DELAY_QUEUE, TIMER_C019_DELAY_QUEUE, TIMER_C020_DELAY_QUEUE]

/-- The fixed step of a well-known activity, in the words of the spec: 20 ms
for `TIMER_20MSEC`, 100 ms for `TIMER_100MSEC`, 1000 ms for `TIMER_1SEC` and
every delay queue, 30000 ms for `TIMER_30SEC` and `TIMER_STATISTICS`; the other
identifiers have no fixed step. -/
def fixedStep (id : Nat) : Option Nat :=
  if id = TIMER_20MSEC then some 20
  else if id = TIMER_100MSEC then some 100
  else if id = TIMER_1SEC then some 1000
  else if id = TIMER_30SEC ∨ id = TIMER_STATISTICS then some 30000
  else if id ∈ delayQueueIds then some 1000
  else none

/-- The operations on rules timers: the three calls of the rules engine and a
firing by the dispatch loop. -/
inductive RulesOp where
  | set (msecFromNow timerIndex : Nat) (recurringCount : Int)
  | pause (timerIndex : Nat)
  | resume (timerIndex : Nat)
  | fire (timerIndex : Nat)
deriving DecidableEq, Repr

/-- One operation, performed at the clock reading `step.1`. -/
def applyRulesOp (env : Env) (s : Sched) (step : Nat × RulesOp) : Sched :=
  match step.2 with
  | RulesOp.set msecFromNow timerIndex recurringCount =>
    (setRulesTimer env { s with millis := step.1 } msecFromNow timerIndex recurringCount).2
  | RulesOp.pause timerIndex => (pause_rules_timer env { s with millis := step.1 } timerIndex).2
  | RulesOp.resume timerIndex =>
    (resume_rules_timer env { s with millis := step.1 } timerIndex).2
  | RulesOp.fire timerIndex => fireRulesTimer env timerIndex s step.1

/-- A finite sequence of operations, each with its clock reading. -/
def runRulesOps (env : Env) (s : Sched) (ops : List (Nat × RulesOp)) : Sched :=
  ops.foldl (applyRulesOp env) s

/-- Store and registry hold entries for the same identifiers. -/
def inSync (st : List (Nat × systemTimerStruct)) (reg : List (Nat × Nat)) : Prop :=
  ∀ k, lookup st k = none ↔ lookup reg k = none

/-- No stored pause remainder lies below `lo`. -/
def par4AtLeast (lo : Int) (st : List (Nat × systemTimerStruct)) : Prop :=
  ∀ p ∈ st, lo ≤ p.2.Par4

/-- The least pause remainder `pause_rules_timer` can store: 0, unless the
build passes the test `timeLeft > 0` at the overflow with a negative
`timeLeft`. -/
def pauseFloor (env : Env) : Int :=
  if env.overflowTimeLeftPositive then min 0 env.overflowTimeLeft else 0

/-- The invariant of the rules timers: store and registry hold entries for the
same identifiers and no stored pause remainder lies below `pauseFloor`. -/
def rulesInvariant (env : Env) (s : Sched) : Prop :=
  inSync s.systemTimers s.msecTimerHandler ∧ par4AtLeast (pauseFloor env) s.systemTimers

/-! ## Theorems -/

/-! ### Association lists -/

theorem lookup_upsert_self {α : Type} (m : List (Nat × α)) (k : Nat) (v : α) :
    lookup (upsert m k v) k = some v := by
  induction m with
  | nil => simp [upsert, lookup]
  | cons p rest ih =>
    obtain ⟨k', v'⟩ := p
    by_cases h : k' = k
    · simp [upsert, lookup, h]
    · simp [upsert, lookup, h, ih]

theorem lookup_upsert_ne {α : Type} (m : List (Nat × α)) (k k' : Nat) (v : α) (hk : k ≠ k') :
    lookup (upsert m k v) k' = lookup m k' := by
  induction m with
  | nil => simp [upsert, lookup, hk]
  | cons p rest ih =>
    obtain ⟨k0, v0⟩ := p
    by_cases h : k0 = k
    · subst h
      simp [upsert, lookup, hk]
    · by_cases h2 : k0 = k'
      · subst h2
        simp [upsert, lookup, h]
      · simp [upsert, lookup, h, h2, ih]

theorem erase_cons_self {α : Type} (v0 : α) (rest : List (Nat × α)) (k : Nat) :
    erase ((k, v0) :: rest) k = erase rest k := by
  simp [erase, List.filter_cons]

theorem erase_cons_ne {α : Type} (k0 : Nat) (v0 : α) (rest : List (Nat × α)) (k : Nat)
    (h : k0 ≠ k) : erase ((k0, v0) :: rest) k = (k0, v0) :: erase rest k := by
  have hb : (k0 != k) = true := by simpa using h
  simp [erase, List.filter_cons, hb]

theorem lookup_erase_self {α : Type} (m : List (Nat × α)) (k : Nat) :
    lookup (erase m k) k = none := by
  induction m with
  | nil => simp [erase, lookup]
  | cons p rest ih =>
    obtain ⟨k0, v0⟩ := p
    by_cases h : k0 = k
    · subst h
      rw [erase_cons_self]
      exact ih
    · rw [erase_cons_ne k0 v0 rest k h]
      simp [lookup, h, ih]

theorem lookup_erase_ne {α : Type} (m : List (Nat × α)) (k k' : Nat) (hk : k ≠ k') :
    lookup (erase m k) k' = lookup m k' := by
  induction m with
  | nil => simp [erase, lookup]
  | cons p rest ih =>
    obtain ⟨k0, v0⟩ := p
    by_cases h : k0 = k
    · subst h
      rw [erase_cons_self]
      simp [lookup, hk, ih]
    · rw [erase_cons_ne k0 v0 rest k h]
      by_cases h2 : k0 = k'
      · simp [lookup, h2]
      · simp [lookup, h2, ih]

theorem upsert_upsert {α : Type} (m : List (Nat × α)) (k : Nat) (v v' : α) :
    upsert (upsert m k v) k v' = upsert m k v' := by
  induction m with
  | nil => simp [upsert]
  | cons p rest ih =>
    obtain ⟨k0, v0⟩ := p
    by_cases h : k0 = k
    · simp [upsert, h]
    · simp [upsert, h, ih]

theorem touchTimer_of_lookup (st : List (Nat × systemTimerStruct)) (id : Nat)
    (d : systemTimerStruct) (h : lookup st id = some d) : touchTimer st id = st := by
  simp [touchTimer, h]

theorem readTimer_of_lookup (st : List (Nat × systemTimerStruct)) (id : Nat)
    (d : systemTimerStruct) (h : lookup st id = some d) : readTimer st id = d := by
  simp [readTimer, h]

theorem upsert_touchTimer (st : List (Nat × systemTimerStruct)) (id : Nat)
    (v : systemTimerStruct) : upsert (touchTimer st id) id v = upsert st id v := by
  unfold touchTimer
  cases h : lookup st id with
  | none => simp [upsert_upsert]
  | some d => simp

/-- C1: for every category `c < 16` and every sub-id `s < 2^28`, decoding the
mixed id `getMixedId c s` returns the sub-id `s` and sets the timer type to
`c`. -/
theorem decode_getMixedId (c s : Nat) (hc : c < 16) (hs : s < 2 ^ 28) :
    decodeSchedulerId (getMixedId c s) = (s, c) := by
  have hmask : idMask = 2 ^ 28 - 1 := by decide
  simp only [decodeSchedulerId, getMixedId, hmask, TIMER_ID_SHIFT, Nat.shiftLeft_eq,
    Nat.shiftRight_eq_div_pow, Nat.and_pow_two_sub_one_eq_mod]
  refine Prod.ext ?_ ?_ <;> simp only <;> omega

theorem decode_getMixedId_witness :
    decodeSchedulerId (getMixedId 6 5) = (5, 6) :=
  decode_getMixedId 6 5 (by decide) (by decide)

/-- C2, the code at the failing input: the timer that `setPluginTaskTimer`
schedules for the task of device 1 with `Par1 = 0` and the rules timer 1 are
registered under one and the same identifier, of category `RULES_TIMER`; a
`setRulesTimer` call after the plugin task timer overwrites its stored
record. -/
theorem pluginTaskTimer_collides_with_rulesTimer :
    (setPluginTaskTimer demoEnv (emptySched 5000) 100 0 0 11 12 13 14).msecTimerHandler
        = [(getMixedId RULES_TIMER 1, 5100)]
    ∧ (setRulesTimer demoEnv (emptySched 5000) 100 1 0).2.msecTimerHandler
        = [(getMixedId RULES_TIMER 1, 5100)]
    ∧ (setRulesTimer demoEnv
          (setPluginTaskTimer demoEnv (emptySched 5000) 100 0 0 11 12 13 14) 100 1 0).2.systemTimers
        = [(getMixedId RULES_TIMER 1,
            { TaskIndex := INVALID_TASK_INDEX, Par1 := 0, Par2 := 100, Par3 := 1, Par4 := 0,
              Par5 := 1 })] := by
  decide

/-- C3, the code at the failing input: a timer scheduled by
`setPluginTaskTimer` for task 0 with parameters 7, 200, 3, 0, 9 and fired by
`handle_schedule` when due is handled as a rules timer: no plugin callback is
invoked, the rule engine receives the event of timer 3 with count 9, and the
stored record stays, changed and re-registered 200 ms later. -/
theorem pluginTaskTimer_fires_as_rulesTimer :
    (handle_schedule demoEnv
        { setPluginTaskTimer demoEnv (emptySched 5000) 100 0 7 200 3 0 9 with millis := 5100 }).trace
        = [ExtCall.saveToRTC, ExtCall.yield, ExtCall.rulesProcessing 3 9]
    ∧ (handle_schedule demoEnv
        { setPluginTaskTimer demoEnv (emptySched 5000) 100 0 7 200 3 0 9 with millis := 5100 }).systemTimers
        = [(getMixedId RULES_TIMER (createPluginTaskTimerId 1 7),
            { TaskIndex := 0, Par1 := 6, Par2 := 200, Par3 := 3, Par4 := 0, Par5 := 10 })]
    ∧ (handle_schedule demoEnv
        { setPluginTaskTimer demoEnv (emptySched 5000) 100 0 7 200 3 0 9 with millis := 5100 }).msecTimerHandler
        = [(getMixedId RULES_TIMER (createPluginTaskTimerId 1 7), 5300)] := by
  decide

/-- C4: drift correction without 32 bit wraparound. With
`overrun = now - (t + step)`, `setNextTimeInterval` yields `t + step` when
`overrun < 0`, `now + step` when `overrun > step`, and otherwise
`now + (step - overrun) = t + 2 * step`. No wraparound means: the sums the
code forms stay below `2^32` and the signed difference fits 32 bits. -/
theorem setNextTimeInterval_drift (t step now : Nat)
    (ht : t + step < 2 ^ 32) (hnow : now < 2 ^ 32)
    (hlo : -(2 : Int) ^ 31 ≤ (now : Int) - ((t : Int) + step))
    (hhi : (now : Int) - ((t : Int) + step) < (2 : Int) ^ 31) :
    ((now : Int) - ((t : Int) + step) < 0 → setNextTimeInterval now t step = t + step)
    ∧ ((now : Int) - ((t : Int) + step) > step → now + step < 2 ^ 32 →
        setNextTimeInterval now t step = now + step)
    ∧ (0 ≤ (now : Int) - ((t : Int) + step) → (now : Int) - ((t : Int) + step) ≤ step →
        now + step < 2 ^ 32 →
        (setNextTimeInterval now t step : Int)
            = now + ((step : Int) - ((now : Int) - ((t : Int) + step)))
        ∧ setNextTimeInterval now t step = t + 2 * step) := by
  have e1 : (t + step) % 4294967296 = t + step := by omega
  have e2 : timePassedSince now (t + step) = (now : Int) - ((t : Int) + step) := by
    unfold timePassedSince i32
    push_cast
    omega
  unfold setNextTimeInterval
  simp only [e1, e2]
  refine ⟨?_, ?_, ?_⟩
  · intro h
    simp [h]
  · intro h hs
    have h0 : ¬ ((now : Int) - ((t : Int) + step) < 0) := by omega
    have h1 : u32 ((now : Int) - ((t : Int) + step)) > step := by
      unfold u32
      omega
    simp only [h0, h1, if_true, if_false]
    omega
  · intro h hle hs
    have h0 : ¬ ((now : Int) - ((t : Int) + step) < 0) := by omega
    have h1 : ¬ (u32 ((now : Int) - ((t : Int) + step)) > step) := by
      unfold u32
      omega
    simp only [h0, h1, if_false]
    unfold u32
    constructor <;> omega

theorem setNextTimeInterval_drift_witness :
    setNextTimeInterval 1000 1000 100 = 1100
    ∧ setNextTimeInterval 1350 1000 100 = 1450
    ∧ setNextTimeInterval 1120 1000 100 = 1200 :=
  ⟨(setNextTimeInterval_drift 1000 100 1000 (by decide) (by decide) (by decide)
      (by decide)).1 (by decide),
    (setNextTimeInterval_drift 1000 100 1350 (by decide) (by decide) (by decide)
      (by decide)).2.1 (by decide) (by decide),
    ((setNextTimeInterval_drift 1000 100 1120 (by decide) (by decide) (by decide)
      (by decide)).2.2 (by decide) (by decide) (by decide)).2⟩

/-- C5, counterexample: at `t = 1000`, `step = 100`, `now = 1120` the code
yields 1200, the reference definition of spec section 4.3 yields 1220. -/
theorem setNextTimeInterval_ne_spec :
    setNextTimeInterval 1120 1000 100 = 1200 ∧ specNextTimeInterval 1120 1000 100 = 1220
    ∧ setNextTimeInterval 1120 1000 100 ≠ specNextTimeInterval 1120 1000 100 := by
  decide

/-- C5, amended: `setNextTimeInterval` is the reference definition of spec
section 4.3 applied to the advanced timer value `t + step` (modulo `2^32`):
with `elapsed = now - (t + step)`, the new value is `t + step` when
`elapsed < 0`, `now + step` when `elapsed > step`, and
`now + (step - elapsed)` otherwise. -/
theorem setNextTimeInterval_eq_spec_advanced (now t step : Nat) :
    setNextTimeInterval now t step
      = specNextTimeInterval now ((t + step) % 4294967296) step := by
  unfold setNextTimeInterval specNextTimeInterval
  simp only
  have hr : -2147483648 ≤ timePassedSince now ((t + step) % 4294967296)
      ∧ timePassedSince now ((t + step) % 4294967296) < 2147483648 := by
    unfold timePassedSince i32
    omega
  generalize timePassedSince now ((t + step) % 4294967296) = passed at hr
  by_cases h0 : passed < 0
  · simp [h0]
  · have hu : (u32 passed : Int) = passed := by
      unfold u32
      omega
    by_cases h1 : passed > (step : Int)
    · have h1' : u32 passed > step := by omega
      simp [h0, h1, h1']
    · have h1' : ¬ (u32 passed > step) := by omega
      simp only [h0, h1, h1', if_false, hu]
      unfold u32
      omega

theorem readTimer_upsert_self (st : List (Nat × systemTimerStruct)) (id : Nat)
    (v : systemTimerStruct) : readTimer (upsert st id v) id = v := by
  simp [readTimer, lookup_upsert_self]

/-! ### Rules timer: firing -/

theorem call_inert (env : Env) (hext : ∀ c s, env.ext c s = s) (c : ExtCall) (s : Sched) :
    call env c s = { s with trace := s.trace ++ [c] } := by
  simp [call, hext]

theorem process_rules_timer_paused (env : Env) (s : Sched) (id lasttimer : Nat)
    (d : systemTimerStruct)
    (h : lookup s.systemTimers (getMixedId RULES_TIMER id) = some d) (h4 : d.Par4 ≠ 0) :
    process_rules_timer env s id lasttimer
      = setNewTimerAt s (getMixedId RULES_TIMER id) ((s.millis + 1000) % 4294967296) := by
  unfold process_rules_timer
  simp only [readTimer_of_lookup _ _ _ h, touchTimer_of_lookup _ _ _ h, ne_eq, h4,
    not_false_eq_true, if_true]

theorem process_rules_timer_recurring (env : Env) (s : Sched) (id lasttimer : Nat)
    (d : systemTimerStruct)
    (h : lookup s.systemTimers (getMixedId RULES_TIMER id) = some d) (h4 : d.Par4 = 0)
    (h1 : 0 < d.Par1) (h5 : 0 < d.Par5) (hU : env.UseRules = true) :
    process_rules_timer env s id lasttimer
      = call env (ExtCall.rulesProcessing d.Par3 d.Par5)
          { s with
            msecTimerHandler := registerAt s.msecTimerHandler (getMixedId RULES_TIMER id)
              (setNextTimeInterval s.millis lasttimer (u32 d.Par2)),
            systemTimers := upsert s.systemTimers (getMixedId RULES_TIMER id)
              { d with Par1 := i32 (d.Par1 - 1), Par5 := i32 (d.Par5 + 1) } } := by
  have h1' : d.Par1 ≠ 0 := by omega
  unfold process_rules_timer
  simp only [readTimer_of_lookup _ _ _ h, touchTimer_of_lookup _ _ _ h, ne_eq, h4,
    not_true_eq_false, if_false, h1', not_false_eq_true, if_true, gt_iff_lt, h1, h5, hU,
    setNewTimerAt, storeTimer, readTimer_upsert_self, upsert_upsert]

theorem process_rules_timer_last (env : Env) (s : Sched) (id lasttimer : Nat)
    (d : systemTimerStruct)
    (h : lookup s.systemTimers (getMixedId RULES_TIMER id) = some d) (h4 : d.Par4 = 0)
    (h1 : d.Par1 = 0) (h5 : 0 < d.Par5) (hU : env.UseRules = true) :
    process_rules_timer env s id lasttimer
      = call env (ExtCall.rulesProcessing d.Par3 d.Par5)
          (eraseTimer s (getMixedId RULES_TIMER id)) := by
  unfold process_rules_timer
  simp only [readTimer_of_lookup _ _ _ h, touchTimer_of_lookup _ _ _ h, ne_eq, h4,
    not_true_eq_false, if_false, h1, gt_iff_lt, h5, hU, if_true]

theorem process_rules_timer_missing (env : Env) (s : Sched) (id lasttimer : Nat)
    (h : lookup s.systemTimers (getMixedId RULES_TIMER id) = none) :
    process_rules_timer env s id lasttimer
      = eraseTimer (storeTimer s (getMixedId RULES_TIMER id) systemTimerStruct.fresh)
          (getMixedId RULES_TIMER id) := by
  unfold process_rules_timer
  simp [readTimer, touchTimer, h, systemTimerStruct.fresh, eraseTimer, storeTimer]

theorem fireRulesTimer_pending (env : Env) (idx : Nat) (s : Sched) (now t : Nat)
    (ht : lookup s.msecTimerHandler (rulesTimerId idx) = some t) :
    fireRulesTimer env idx s now
      = process_rules_timer env
          { s with millis := now, msecTimerHandler := erase s.msecTimerHandler (rulesTimerId idx) }
          (createRulesTimerId idx) t := by
  unfold rulesTimerId at ht
  simp only [fireRulesTimer, getTimerForId, ht, rulesTimerId]

theorem fireRulesTimer_recurring (env : Env) (hext : ∀ c s, env.ext c s = s)
    (hU : env.UseRules = true) (idx : Nat) (s : Sched) (now t : Nat) (d : systemTimerStruct)
    (hd : lookup s.systemTimers (rulesTimerId idx) = some d)
    (ht : lookup s.msecTimerHandler (rulesTimerId idx) = some t)
    (h4 : d.Par4 = 0) (h1 : 0 < d.Par1) (h5 : 0 < d.Par5) :
    (fireRulesTimer env idx s now).trace = s.trace ++ [ExtCall.rulesProcessing d.Par3 d.Par5]
    ∧ lookup (fireRulesTimer env idx s now).systemTimers (rulesTimerId idx)
        = some { d with Par1 := i32 (d.Par1 - 1), Par5 := i32 (d.Par5 + 1) }
    ∧ lookup (fireRulesTimer env idx s now).msecTimerHandler (rulesTimerId idx)
        = some (setNextTimeInterval now t (u32 d.Par2)) := by
  have hd' : lookup (Sched.systemTimers
      { s with millis := now, msecTimerHandler := erase s.msecTimerHandler (rulesTimerId idx) })
      (getMixedId RULES_TIMER (createRulesTimerId idx)) = some d := hd
  rw [fireRulesTimer_pending env idx s now t ht,
    process_rules_timer_recurring env _ _ t d hd' h4 h1 h5 hU, call_inert env hext]
  exact ⟨rfl, lookup_upsert_self _ _ _, lookup_upsert_self _ _ _⟩

theorem fireRulesTimer_last (env : Env) (hext : ∀ c s, env.ext c s = s)
    (hU : env.UseRules = true) (idx : Nat) (s : Sched) (now t : Nat) (d : systemTimerStruct)
    (hd : lookup s.systemTimers (rulesTimerId idx) = some d)
    (ht : lookup s.msecTimerHandler (rulesTimerId idx) = some t)
    (h4 : d.Par4 = 0) (h1 : d.Par1 = 0) (h5 : 0 < d.Par5) :
    (fireRulesTimer env idx s now).trace = s.trace ++ [ExtCall.rulesProcessing d.Par3 d.Par5]
    ∧ lookup (fireRulesTimer env idx s now).systemTimers (rulesTimerId idx) = none
    ∧ lookup (fireRulesTimer env idx s now).msecTimerHandler (rulesTimerId idx) = none := by
  have hd' : lookup (Sched.systemTimers
      { s with millis := now, msecTimerHandler := erase s.msecTimerHandler (rulesTimerId idx) })
      (getMixedId RULES_TIMER (createRulesTimerId idx)) = some d := hd
  rw [fireRulesTimer_pending env idx s now t ht,
    process_rules_timer_last env _ _ t d hd' h4 h1 h5 hU, call_inert env hext]
  exact ⟨rfl, lookup_erase_self _ _, lookup_erase_self _ _⟩

theorem fireRulesTimer_chain (env : Env) (hext : ∀ c s, env.ext c s = s)
    (hU : env.UseRules = true) (idx : Nat) (p3 : Int) :
    ∀ (m : Nat) (times : List Nat) (s : Sched) (c : Int) (d : systemTimerStruct) (t : Nat),
      times.length = m + 1 → 0 < c → c + m < 2147483648 →
      lookup s.systemTimers (rulesTimerId idx) = some d →
      d.Par1 = m → d.Par3 = p3 → d.Par4 = 0 → d.Par5 = c →
      lookup s.msecTimerHandler (rulesTimerId idx) = some t →
      (times.foldl (fireRulesTimer env idx) s).trace
          = s.trace ++ (List.range (m + 1)).map
              (fun (k : Nat) => ExtCall.rulesProcessing p3 (c + (k : Int)))
        ∧ lookup (times.foldl (fireRulesTimer env idx) s).systemTimers (rulesTimerId idx) = none
        ∧ lookup (times.foldl (fireRulesTimer env idx) s).msecTimerHandler (rulesTimerId idx)
            = none := by
  intro m
  induction m with
  | zero =>
    intro times s c d t hlen hc _ hd h1 h3 h4 h5 ht
    match times, hlen with
    | [now], _ =>
      have h1' : d.Par1 = 0 := by simpa using h1
      have h5' : 0 < d.Par5 := by omega
      have key := fireRulesTimer_last env hext hU idx s now t d hd ht h4 h1' h5'
      simp only [List.foldl]
      refine ⟨?_, key.2.1, key.2.2⟩
      rw [key.1, h3, h5]
      simp [List.range_succ]
  | succ m ih =>
    intro times s c d t hlen hc hcm hd h1 h3 h4 h5 ht
    match times, hlen with
    | now :: rest, hlen =>
      have hrest : rest.length = m + 1 := by simpa using hlen
      have h1' : 0 < d.Par1 := by rw [h1]; push_cast; omega
      have h5' : 0 < d.Par5 := by omega
      have step := fireRulesTimer_recurring env hext hU idx s now t d hd ht h4 h1' h5'
      have hcm' : c + 1 + (m : Int) < 2147483648 := by push_cast at hcm; omega
      have key := ih rest (fireRulesTimer env idx s now) (c + 1)
        { d with Par1 := i32 (d.Par1 - 1), Par5 := i32 (d.Par5 + 1) }
        (setNextTimeInterval now t (u32 d.Par2)) hrest (by omega) hcm' step.2.1
        (by simp only [h1, i32]; push_cast; push_cast at hcm; omega) h3 h4
        (by simp only [h5, i32]; push_cast at hcm; omega) step.2.2
      simp only [List.foldl]
      refine ⟨?_, key.2.1, key.2.2⟩
      rw [key.1, step.1, List.range_succ_eq_map (m + 1), h3, h5]
      simp only [List.map_cons, List.map_map, List.append_assoc, List.singleton_append]
      congr 2
      · simp
      · apply List.map_congr_left
        intro k _
        simp only [Function.comp, Nat.succ_eq_add_one]
        push_cast
        congr 1
        omega

/-! ### Rules timer: setting -/

theorem setRulesTimer_valid (env : Env) (s : Sched) (msecFromNow timerIndex : Nat)
    (recurringCount : Int) (hv : checkRulesTimerIndex env timerIndex = true) :
    setRulesTimer env s msecFromNow timerIndex recurringCount
      = (true,
          setNewTimerAt
            (storeTimer s (rulesTimerId timerIndex)
              (rulesTimerData msecFromNow timerIndex recurringCount))
            (rulesTimerId timerIndex) ((s.millis + msecFromNow) % 4294967296)) := by
  unfold setRulesTimer
  simp only [hv, Bool.not_true, Bool.false_eq_true, if_false, rulesTimerId, rulesTimerData,
    systemTimerStruct.fresh, storeTimer, setNewTimerAt]
  by_cases h0 : msecFromNow = 0 <;> by_cases h1 : recurringCount > 0 <;> simp [h0, h1]

/-- C6: bounded recurrence. After `setRulesTimer(delay, timerIndex, n)` with a
valid index, `delay > 0`, `n ≥ 1`, rules enabled and external code that does
not touch the scheduler, `n` successive firings deliver exactly the rule
events with run counts `1, 2, ..., n` in that order; after the `n`-th firing
neither the store nor the registry holds the timer, and a further call of
`process_rules_timer` delivers no event and leaves the store without an entry
and the registry as it is. -/
theorem rulesTimer_bounded_recurrence (env : Env) (hext : ∀ c s, env.ext c s = s)
    (hU : env.UseRules = true) (s0 : Sched) (delay timerIndex n : Nat) (times : List Nat)
    (hv : checkRulesTimerIndex env timerIndex = true) (hdelay : 0 < delay)
    (hn1 : 1 ≤ n) (hn2 : n < 2147483648) (hlen : times.length = n) :
    (rulesTimerRun env s0 delay timerIndex n times).trace
        = s0.trace ++ (List.range n).map
            (fun (k : Nat) => ExtCall.rulesProcessing (i32 timerIndex) (1 + (k : Int)))
    ∧ lookup (rulesTimerRun env s0 delay timerIndex n times).systemTimers
        (rulesTimerId timerIndex) = none
    ∧ getTimerForId (rulesTimerRun env s0 delay timerIndex n times).msecTimerHandler
        (rulesTimerId timerIndex) = none
    ∧ ∀ now lasttimer : Nat,
        (process_rules_timer env
            { rulesTimerRun env s0 delay timerIndex n times with millis := now }
            (createRulesTimerId timerIndex) lasttimer).trace
          = (rulesTimerRun env s0 delay timerIndex n times).trace
        ∧ lookup (process_rules_timer env
            { rulesTimerRun env s0 delay timerIndex n times with millis := now }
            (createRulesTimerId timerIndex) lasttimer).systemTimers (rulesTimerId timerIndex)
          = none
        ∧ (process_rules_timer env
            { rulesTimerRun env s0 delay timerIndex n times with millis := now }
            (createRulesTimerId timerIndex) lasttimer).msecTimerHandler
          = (rulesTimerRun env s0 delay timerIndex n times).msecTimerHandler := by
  obtain ⟨m, rfl⟩ : ∃ m, n = m + 1 := ⟨n - 1, by omega⟩
  have hd0 : delay ≠ 0 := by omega
  have key := fireRulesTimer_chain env hext hU timerIndex (i32 timerIndex) m times
    (setRulesTimer env s0 delay timerIndex ((m + 1 : Nat) : Int)).2 1
    (rulesTimerData delay timerIndex ((m + 1 : Nat) : Int))
    ((s0.millis + delay) % 4294967296) hlen (by decide) (by omega)
    (by rw [setRulesTimer_valid env s0 delay timerIndex _ hv]; exact lookup_upsert_self _ _ _)
    (by simp only [rulesTimerData, hd0, if_false, i32]; push_cast; split <;> omega)
    rfl rfl (by simp [rulesTimerData, hd0])
    (by rw [setRulesTimer_valid env s0 delay timerIndex _ hv]; exact lookup_upsert_self _ _ _)
  have htr : (setRulesTimer env s0 delay timerIndex ((m + 1 : Nat) : Int)).2.trace = s0.trace := by
    rw [setRulesTimer_valid env s0 delay timerIndex _ hv]
    rfl
  rw [htr] at key
  refine ⟨key.1, key.2.1, key.2.2, ?_⟩
  intro now lasttimer
  have hmiss : lookup (Sched.systemTimers
      { rulesTimerRun env s0 delay timerIndex ((m + 1 : Nat) : Int) times with millis := now })
      (getMixedId RULES_TIMER (createRulesTimerId timerIndex)) = none := key.2.1
  rw [process_rules_timer_missing env _ _ lasttimer hmiss]
  exact ⟨rfl, lookup_erase_self _ _, rfl⟩

theorem rulesTimer_bounded_recurrence_witness :
    (rulesTimerRun demoEnv (emptySched 0) 1000 1 3 [1000, 2000, 3000]).trace
        = [ExtCall.rulesProcessing 1 1, ExtCall.rulesProcessing 1 2,
            ExtCall.rulesProcessing 1 3]
    ∧ lookup (rulesTimerRun demoEnv (emptySched 0) 1000 1 3 [1000, 2000, 3000]).systemTimers
        (rulesTimerId 1) = none
    ∧ getTimerForId (rulesTimerRun demoEnv (emptySched 0) 1000 1 3
        [1000, 2000, 3000]).msecTimerHandler (rulesTimerId 1) = none
    ∧ (process_rules_timer demoEnv
        { rulesTimerRun demoEnv (emptySched 0) 1000 1 3 [1000, 2000, 3000] with millis := 4000 }
        (createRulesTimerId 1) 4000).trace
        = [ExtCall.rulesProcessing 1 1, ExtCall.rulesProcessing 1 2,
            ExtCall.rulesProcessing 1 3] :=
  have h := rulesTimer_bounded_recurrence demoEnv (fun _ _ => rfl) rfl (emptySched 0) 1000 1 3
    [1000, 2000, 3000] (by decide) (by decide) (by decide) (by decide) rfl
  ⟨h.1, h.2.1, h.2.2.1, (h.2.2.2 4000 4000).1.trans h.1⟩

/-! ### Rules timer: pause and resume -/

/-- Where the product does not overflow it is the signed 32 bit difference
`dueTime - now`. -/
theorem neg_timePassedSince (now timer : Nat)
    (h : timePassedSince now timer ≠ -2147483648) :
    timePassedSince now timer * -1 = i32 ((timer : Int) - (now : Int)) := by
  unfold timePassedSince i32 at *
  omega

/-- The product overflows exactly when the due time lies `2^31` ms ahead. -/
theorem timePassedSince_overflow_iff (now timer : Nat) :
    timePassedSince now timer = -2147483648
      ↔ i32 ((timer : Int) - (now : Int)) = -2147483648 := by
  unfold timePassedSince i32
  omega

/-- The call `pause_rules_timer` on a valid index whose timer is registered,
case by case. -/
theorem pause_rules_timer_registered (env : Env) (s : Sched) (timerIndex due : Nat)
    (hv : checkRulesTimerIndex env timerIndex = true)
    (hdue : getTimerForId s.msecTimerHandler (rulesTimerId timerIndex) = some due) :
    pause_rules_timer env s timerIndex
      = if (readTimer s.systemTimers (rulesTimerId timerIndex)).Par4 = 0 then
          if timePassedSince s.millis due = -2147483648 then
            if env.overflowTimeLeftPositive = true then
              (true, storeTimer s (rulesTimerId timerIndex)
                { readTimer s.systemTimers (rulesTimerId timerIndex) with
                  Par4 := env.overflowTimeLeft })
            else
              (false, { s with systemTimers := touchTimer s.systemTimers (rulesTimerId timerIndex) })
          else if 0 < i32 ((due : Int) - (s.millis : Int)) then
            (true, storeTimer s (rulesTimerId timerIndex)
              { readTimer s.systemTimers (rulesTimerId timerIndex) with
                Par4 := i32 ((due : Int) - (s.millis : Int)) })
          else (false, { s with systemTimers := touchTimer s.systemTimers (rulesTimerId timerIndex) })
        else (false, { s with systemTimers := touchTimer s.systemTimers (rulesTimerId timerIndex) }) := by
  unfold rulesTimerId at hdue
  unfold pause_rules_timer
  simp only [hv, Bool.not_true, Bool.false_eq_true, if_false, hdue, rulesTimerId, storeTimer,
    gt_iff_lt, upsert_touchTimer]
  by_cases h4 : (readTimer s.systemTimers
      (getMixedId RULES_TIMER (createRulesTimerId timerIndex))).Par4 = 0
  · by_cases hov : timePassedSince s.millis due = -2147483648
    · simp only [h4, hov, if_true, decide_True]
    · simp only [h4, hov, if_true, if_false, decide_False, Bool.false_eq_true,
        neg_timePassedSince s.millis due hov, decide_eq_true_eq]
  · simp only [h4, if_false]

/-- The call `pause_rules_timer` on a valid index whose timer is registered and
whose due time does not lie exactly `2^31` ms ahead. -/
theorem pause_rules_timer_pending (env : Env) (s : Sched) (timerIndex due : Nat)
    (hv : checkRulesTimerIndex env timerIndex = true)
    (hdue : getTimerForId s.msecTimerHandler (rulesTimerId timerIndex) = some due)
    (hno : timePassedSince s.millis due ≠ -2147483648) :
    pause_rules_timer env s timerIndex
      = if (readTimer s.systemTimers (rulesTimerId timerIndex)).Par4 = 0 then
          if 0 < i32 ((due : Int) - (s.millis : Int)) then
            (true, storeTimer s (rulesTimerId timerIndex)
              { readTimer s.systemTimers (rulesTimerId timerIndex) with
                Par4 := i32 ((due : Int) - (s.millis : Int)) })
          else (false, { s with systemTimers := touchTimer s.systemTimers (rulesTimerId timerIndex) })
        else (false, { s with systemTimers := touchTimer s.systemTimers (rulesTimerId timerIndex) }) := by
  rw [pause_rules_timer_registered env s timerIndex due hv hdue]
  simp only [hno, if_false]

theorem pause_rules_timer_absent (env : Env) (s : Sched) (timerIndex : Nat)
    (hdue : getTimerForId s.msecTimerHandler (rulesTimerId timerIndex) = none) :
    pause_rules_timer env s timerIndex = (false, s) := by
  unfold rulesTimerId at hdue
  unfold pause_rules_timer
  by_cases hv : checkRulesTimerIndex env timerIndex = true
  · simp only [hv, Bool.not_true, Bool.false_eq_true, if_false, hdue]
  · simp [hv]

theorem resume_rules_timer_pending (env : Env) (s : Sched) (timerIndex due : Nat)
    (hv : checkRulesTimerIndex env timerIndex = true)
    (hdue : getTimerForId s.msecTimerHandler (rulesTimerId timerIndex) = some due) :
    resume_rules_timer env s timerIndex
      = if (readTimer s.systemTimers (rulesTimerId timerIndex)).Par4 ≠ 0 then
          (true, storeTimer
            (setNewTimerAt s (rulesTimerId timerIndex)
              (u32 ((s.millis : Int)
                + (u32 (readTimer s.systemTimers (rulesTimerId timerIndex)).Par4 : Int))))
            (rulesTimerId timerIndex)
            { readTimer s.systemTimers (rulesTimerId timerIndex) with Par4 := 0 })
        else (false, { s with systemTimers := touchTimer s.systemTimers (rulesTimerId timerIndex) }) := by
  unfold rulesTimerId at hdue
  unfold resume_rules_timer
  simp only [hv, Bool.not_true, Bool.false_eq_true, if_false, hdue, rulesTimerId, storeTimer,
    setNewTimerAt, upsert_touchTimer]

theorem resume_rules_timer_absent (env : Env) (s : Sched) (timerIndex : Nat)
    (hdue : getTimerForId s.msecTimerHandler (rulesTimerId timerIndex) = none) :
    resume_rules_timer env s timerIndex = (false, s) := by
  unfold rulesTimerId at hdue
  unfold resume_rules_timer
  by_cases hv : checkRulesTimerIndex env timerIndex = true
  · simp only [hv, Bool.not_true, Bool.false_eq_true, if_false, hdue]
  · simp [hv]

theorem fireRulesTimer_paused (env : Env) (idx : Nat) (s : Sched) (now t : Nat)
    (d : systemTimerStruct)
    (hd : lookup s.systemTimers (rulesTimerId idx) = some d)
    (ht : lookup s.msecTimerHandler (rulesTimerId idx) = some t) (h4 : d.Par4 ≠ 0) :
    (fireRulesTimer env idx s now).systemTimers = s.systemTimers
    ∧ (fireRulesTimer env idx s now).trace = s.trace
    ∧ lookup (fireRulesTimer env idx s now).msecTimerHandler (rulesTimerId idx)
        = some ((now + 1000) % 4294967296) := by
  have hd' : lookup (Sched.systemTimers
      { s with millis := now, msecTimerHandler := erase s.msecTimerHandler (rulesTimerId idx) })
      (getMixedId RULES_TIMER (createRulesTimerId idx)) = some d := hd
  rw [fireRulesTimer_pending env idx s now t ht, process_rules_timer_paused env _ _ t d hd' h4]
  exact ⟨rfl, rfl, lookup_upsert_self _ _ _⟩

theorem fireRulesTimer_paused_polls (env : Env) (idx : Nat) (d : systemTimerStruct)
    (h4 : d.Par4 ≠ 0) :
    ∀ (polls : List Nat) (s : Sched) (t : Nat),
      lookup s.systemTimers (rulesTimerId idx) = some d →
      lookup s.msecTimerHandler (rulesTimerId idx) = some t →
      (polls.foldl (fireRulesTimer env idx) s).systemTimers = s.systemTimers
      ∧ (polls.foldl (fireRulesTimer env idx) s).trace = s.trace
      ∧ ∃ t', lookup (polls.foldl (fireRulesTimer env idx) s).msecTimerHandler (rulesTimerId idx)
          = some t' := by
  intro polls
  induction polls with
  | nil =>
    intro s t _ ht
    exact ⟨rfl, rfl, t, ht⟩
  | cons now rest ih =>
    intro s t hd ht
    have step := fireRulesTimer_paused env idx s now t d hd ht h4
    have key := ih (fireRulesTimer env idx s now) _ (by rw [step.1]; exact hd) step.2.2
    simp only [List.foldl]
    exact ⟨key.1.trans step.1, key.2.1.trans step.2.1, key.2.2⟩

theorem rulesTimerPaused_eq (env : Env) (s0 : Sched) (D timerIndex : Nat) (n : Int) (e : Nat)
    (hv : checkRulesTimerIndex env timerIndex = true) (hD : D < 2147483648) (he : e < D) :
    rulesTimerPaused env s0 D timerIndex n e
      = (true, storeTimer
          { (setRulesTimer env s0 D timerIndex n).2 with millis := (s0.millis + e) % 4294967296 }
          (rulesTimerId timerIndex)
          { rulesTimerData D timerIndex n with Par4 := ((D - e : Nat) : Int) }) := by
  have hdue : getTimerForId (Sched.msecTimerHandler
      { (setRulesTimer env s0 D timerIndex n).2 with millis := (s0.millis + e) % 4294967296 })
      (rulesTimerId timerIndex) = some ((s0.millis + D) % 4294967296) := by
    rw [setRulesTimer_valid env s0 D timerIndex n hv]
    exact lookup_upsert_self _ _ _
  have hread : readTimer (Sched.systemTimers
      { (setRulesTimer env s0 D timerIndex n).2 with millis := (s0.millis + e) % 4294967296 })
      (rulesTimerId timerIndex) = rulesTimerData D timerIndex n := by
    rw [setRulesTimer_valid env s0 D timerIndex n hv]
    exact readTimer_upsert_self _ _ _
  have hleft : i32 ((((s0.millis + D) % 4294967296 : Nat) : Int)
      - (((s0.millis + e) % 4294967296 : Nat) : Int)) = ((D - e : Nat) : Int) := by
    unfold i32
    omega
  have hno : timePassedSince ((s0.millis + e) % 4294967296) ((s0.millis + D) % 4294967296)
      ≠ -2147483648 := by
    unfold timePassedSince i32
    omega
  unfold rulesTimerPaused
  rw [pause_rules_timer_pending env _ timerIndex _ hv hdue hno, hread]
  have h4 : (rulesTimerData D timerIndex n).Par4 = 0 := rfl
  have hpos : (0 : Int) < ((D - e : Nat) : Int) := by omega
  simp only [h4, if_true, hleft, hpos]

/-- C7: pause and resume preserve the remaining time. For a valid timer index,
a delay `0 < D < 2^31` and `0 ≤ e < D`: when the timer is set at the clock
reading of `s0`, paused `e` ms later and resumed at any clock reading `T1`,
with only firings of the paused timer in between, then the three calls return
true, the pause stores the remainder `D - e`, the registry due time after the
resume is `T1 + (D - e)` modulo `2^32`, and the stored pause remainder is 0
again. -/
theorem pause_resume_preserves_remaining (env : Env) (s0 : Sched) (D timerIndex : Nat)
    (n : Int) (e : Nat) (polls : List Nat) (T1 : Nat)
    (hv : checkRulesTimerIndex env timerIndex = true) (hD : D < 2147483648) (he : e < D) :
    (setRulesTimer env s0 D timerIndex n).1 = true
    ∧ (rulesTimerPaused env s0 D timerIndex n e).1 = true
    ∧ (readTimer (rulesTimerPaused env s0 D timerIndex n e).2.systemTimers
        (rulesTimerId timerIndex)).Par4 = ((D - e : Nat) : Int)
    ∧ (rulesTimerResumed env s0 D timerIndex n e polls T1).1 = true
    ∧ getTimerForId (rulesTimerResumed env s0 D timerIndex n e polls T1).2.msecTimerHandler
        (rulesTimerId timerIndex) = some ((T1 + (D - e)) % 4294967296)
    ∧ ∃ d, lookup (rulesTimerResumed env s0 D timerIndex n e polls T1).2.systemTimers
        (rulesTimerId timerIndex) = some d ∧ d.Par4 = 0 := by
  have hp := rulesTimerPaused_eq env s0 D timerIndex n e hv hD he
  have hstore : lookup (rulesTimerPaused env s0 D timerIndex n e).2.systemTimers
      (rulesTimerId timerIndex)
      = some { rulesTimerData D timerIndex n with Par4 := ((D - e : Nat) : Int) } := by
    rw [hp]
    exact lookup_upsert_self _ _ _
  have hreg : lookup (rulesTimerPaused env s0 D timerIndex n e).2.msecTimerHandler
      (rulesTimerId timerIndex) = some ((s0.millis + D) % 4294967296) := by
    rw [hp, setRulesTimer_valid env s0 D timerIndex n hv]
    exact lookup_upsert_self _ _ _
  have hne : (systemTimerStruct.Par4
      { rulesTimerData D timerIndex n with Par4 := ((D - e : Nat) : Int) }) ≠ 0 := by
    show ((D - e : Nat) : Int) ≠ 0
    omega
  obtain ⟨hpst, _, t', ht'⟩ := fireRulesTimer_paused_polls env timerIndex _ hne polls
    (rulesTimerPaused env s0 D timerIndex n e).2 _ hstore hreg
  have hdue : getTimerForId (Sched.msecTimerHandler
      { polls.foldl (fireRulesTimer env timerIndex)
          (rulesTimerPaused env s0 D timerIndex n e).2 with millis := T1 % 4294967296 })
      (rulesTimerId timerIndex) = some t' := ht'
  have hread : readTimer (Sched.systemTimers
      { polls.foldl (fireRulesTimer env timerIndex)
          (rulesTimerPaused env s0 D timerIndex n e).2 with millis := T1 % 4294967296 })
      (rulesTimerId timerIndex)
      = { rulesTimerData D timerIndex n with Par4 := ((D - e : Nat) : Int) } := by
    show readTimer (polls.foldl (fireRulesTimer env timerIndex)
      (rulesTimerPaused env s0 D timerIndex n e).2).systemTimers (rulesTimerId timerIndex) = _
    rw [hpst]
    exact readTimer_of_lookup _ _ _ hstore
  have hr : rulesTimerResumed env s0 D timerIndex n e polls T1
      = (true, storeTimer
          (setNewTimerAt
            { polls.foldl (fireRulesTimer env timerIndex)
                (rulesTimerPaused env s0 D timerIndex n e).2 with millis := T1 % 4294967296 }
            (rulesTimerId timerIndex)
            (u32 (((T1 % 4294967296 : Nat) : Int) + (u32 ((D - e : Nat) : Int) : Int))))
          (rulesTimerId timerIndex)
          { rulesTimerData D timerIndex n with Par4 := 0 }) := by
    unfold rulesTimerResumed
    rw [resume_rules_timer_pending env _ timerIndex t' hv hdue, hread]
    simp only [ne_eq, hne, not_false_eq_true, if_true]
  refine ⟨?_, ?_, ?_, ?_, ?_, ?_⟩
  · rw [setRulesTimer_valid env s0 D timerIndex n hv]
  · rw [hp]
  · rw [readTimer_of_lookup _ _ _ hstore]
  · rw [hr]
  · rw [hr]
    have harith : u32 (((T1 % 4294967296 : Nat) : Int) + (u32 ((D - e : Nat) : Int) : Int))
        = (T1 + (D - e)) % 4294967296 := by
      unfold u32
      omega
    rw [← harith]
    exact lookup_upsert_self _ _ _
  · rw [hr]
    exact ⟨_, lookup_upsert_self _ _ _, rfl⟩

theorem pause_resume_preserves_remaining_witness :
    (rulesTimerPaused demoEnv (emptySched 5000) 1000 1 1 300).1 = true
    ∧ (rulesTimerResumed demoEnv (emptySched 5000) 1000 1 1 300 [] 5300).1 = true
    ∧ getTimerForId
        (rulesTimerResumed demoEnv (emptySched 5000) 1000 1 1 300 [] 5300).2.msecTimerHandler
        (rulesTimerId 1) = some 6000 :=
  have h := pause_resume_preserves_remaining demoEnv (emptySched 5000) 1000 1 1 300 [] 5300
    (by decide) (by decide) (by decide)
  ⟨h.2.1, h.2.2.2.1, h.2.2.2.2.1⟩

/-- Away from the overflow the call `pause_rules_timer` does what is asked of
it. For a valid timer index, in a state whose registered due time (if any) does
not lie exactly `2^31` ms ahead, `pause_rules_timer` returns true exactly when
the registry holds a due time for the rules timer, the stored pause remainder
`Par4` reads 0, and `dueTime - now` (signed 32 bit difference) is positive; on
success the stored pause remainder becomes `dueTime - now`, and the registry,
the other fields of the record, the other records of the store and the rest of
the state are unchanged. -/
theorem pause_rules_timer_no_overflow (env : Env) (s : Sched) (timerIndex : Nat)
    (hv : checkRulesTimerIndex env timerIndex = true)
    (hno : ∀ due, getTimerForId s.msecTimerHandler (rulesTimerId timerIndex) = some due →
      timePassedSince s.millis due ≠ -2147483648) :
    ((pause_rules_timer env s timerIndex).1 = true ↔
      ∃ due, getTimerForId s.msecTimerHandler (rulesTimerId timerIndex) = some due
        ∧ (readTimer s.systemTimers (rulesTimerId timerIndex)).Par4 = 0
        ∧ 0 < i32 ((due : Int) - (s.millis : Int)))
    ∧ ∀ due, getTimerForId s.msecTimerHandler (rulesTimerId timerIndex) = some due →
        (pause_rules_timer env s timerIndex).1 = true →
        (pause_rules_timer env s timerIndex).2
            = storeTimer s (rulesTimerId timerIndex)
                { readTimer s.systemTimers (rulesTimerId timerIndex) with
                  Par4 := i32 ((due : Int) - (s.millis : Int)) }
          ∧ (pause_rules_timer env s timerIndex).2.msecTimerHandler = s.msecTimerHandler
          ∧ ∀ k, k ≠ rulesTimerId timerIndex →
              lookup (pause_rules_timer env s timerIndex).2.systemTimers k
                = lookup s.systemTimers k := by
  cases hdue : getTimerForId s.msecTimerHandler (rulesTimerId timerIndex) with
  | none =>
    rw [pause_rules_timer_absent env s timerIndex hdue]
    simp
  | some due =>
    rw [pause_rules_timer_pending env s timerIndex due hv hdue (hno due hdue)]
    by_cases h4 : (readTimer s.systemTimers (rulesTimerId timerIndex)).Par4 = 0
    · by_cases hpos : 0 < i32 ((due : Int) - (s.millis : Int))
      · simp only [h4, hpos, if_true, Option.some.injEq, exists_eq_left', and_self, true_iff,
          true_and]
        intro due' hd' _
        subst hd'
        refine ⟨rfl, rfl, ?_⟩
        intro k hk
        exact lookup_upsert_ne _ _ _ _ (Ne.symm hk)
      · simp [h4, hpos]
    · simp [h4]

theorem pause_rules_timer_no_overflow_witness :
    ((pause_rules_timer demoEnv
        { (setRulesTimer demoEnv (emptySched 5000) 1000 1 1).2 with millis := 5300 } 1).1 = true ↔
      ∃ due, getTimerForId (Sched.msecTimerHandler
          { (setRulesTimer demoEnv (emptySched 5000) 1000 1 1).2 with millis := 5300 })
          (rulesTimerId 1) = some due
        ∧ (readTimer (Sched.systemTimers
          { (setRulesTimer demoEnv (emptySched 5000) 1000 1 1).2 with millis := 5300 })
          (rulesTimerId 1)).Par4 = 0
        ∧ 0 < i32 ((due : Int) - ((5300 : Nat) : Int)))
    ∧ (pause_rules_timer demoEnv
        { (setRulesTimer demoEnv (emptySched 5000) 1000 1 1).2 with millis := 5300 } 1).1 = true :=
  ⟨(pause_rules_timer_no_overflow demoEnv
      { (setRulesTimer demoEnv (emptySched 5000) 1000 1 1).2 with millis := 5300 } 1
      (by decide) (by
        intro due hdue
        have h6 : due = 6000 := by
          have h : getTimerForId (Sched.msecTimerHandler
              { (setRulesTimer demoEnv (emptySched 5000) 1000 1 1).2 with millis := 5300 })
              (rulesTimerId 1) = some 6000 := by decide
          rw [h] at hdue
          exact (Option.some.inj hdue).symm
        subst h6
        decide)).1, by decide⟩

/-- At the overflow the outcome of `pause_rules_timer` is the build's: for a
valid timer index whose registered due time lies exactly `2^31` ms ahead and
whose stored pause remainder reads 0, the call returns what the build makes of
the test `timeLeft > 0`, and when that is true the pause remainder becomes what
the build left in `timeLeft`. -/
theorem pause_rules_timer_at_overflow (env : Env) (s : Sched) (timerIndex due : Nat)
    (hv : checkRulesTimerIndex env timerIndex = true)
    (hdue : getTimerForId s.msecTimerHandler (rulesTimerId timerIndex) = some due)
    (h4 : (readTimer s.systemTimers (rulesTimerId timerIndex)).Par4 = 0)
    (hov : i32 ((due : Int) - (s.millis : Int)) = -2147483648) :
    (pause_rules_timer env s timerIndex).1 = env.overflowTimeLeftPositive
    ∧ (env.overflowTimeLeftPositive = true →
        (pause_rules_timer env s timerIndex).2
          = storeTimer s (rulesTimerId timerIndex)
              { readTimer s.systemTimers (rulesTimerId timerIndex) with
                Par4 := env.overflowTimeLeft }) := by
  have hp := (timePassedSince_overflow_iff s.millis due).2 hov
  rw [pause_rules_timer_registered env s timerIndex due hv hdue]
  simp only [h4, hp, if_true]
  cases hb : env.overflowTimeLeftPositive <;> simp

/-- C10: for timer index 0 and for every timer index above `RULES_TIMER_MAX`,
`setRulesTimer`, `pause_rules_timer` and `resume_rules_timer` return false and
leave the scheduler state (registry and store included) unchanged; for every
timer index in `1..RULES_TIMER_MAX`, `setRulesTimer` returns true. -/
theorem rules_timer_index_check (env : Env) (s : Sched) (timerIndex msecFromNow : Nat)
    (recurringCount : Int) :
    ((timerIndex = 0 ∨ timerIndex > env.RULES_TIMER_MAX) →
      setRulesTimer env s msecFromNow timerIndex recurringCount = (false, s)
      ∧ pause_rules_timer env s timerIndex = (false, s)
      ∧ resume_rules_timer env s timerIndex = (false, s))
    ∧ ((1 ≤ timerIndex ∧ timerIndex ≤ env.RULES_TIMER_MAX) →
      (setRulesTimer env s msecFromNow timerIndex recurringCount).1 = true) := by
  constructor
  · intro h
    have hc : checkRulesTimerIndex env timerIndex = false := by
      unfold checkRulesTimerIndex
      rcases h with h | h
      · simp [h]
      · simp [h]
    simp [setRulesTimer, pause_rules_timer, resume_rules_timer, hc]
  · intro h
    have hc : checkRulesTimerIndex env timerIndex = true := by
      unfold checkRulesTimerIndex
      have h1 : ¬ (timerIndex > env.RULES_TIMER_MAX) := by omega
      have h2 : timerIndex ≠ 0 := by omega
      simp [h1, h2]
    rw [setRulesTimer_valid env s msecFromNow timerIndex recurringCount hc]

theorem rules_timer_index_check_witness :
    (setRulesTimer demoEnv (emptySched 5000) 1000 0 1 = (false, emptySched 5000)
      ∧ pause_rules_timer demoEnv (emptySched 5000) 0 = (false, emptySched 5000)
      ∧ resume_rules_timer demoEnv (emptySched 5000) 0 = (false, emptySched 5000))
    ∧ (setRulesTimer demoEnv (emptySched 5000) 1000 9 1 = (false, emptySched 5000)
      ∧ pause_rules_timer demoEnv (emptySched 5000) 9 = (false, emptySched 5000)
      ∧ resume_rules_timer demoEnv (emptySched 5000) 9 = (false, emptySched 5000))
    ∧ (setRulesTimer demoEnv (emptySched 5000) 1000 8 1).1 = true :=
  ⟨(rules_timer_index_check demoEnv (emptySched 5000) 0 1000 1).1 (Or.inl rfl),
    (rules_timer_index_check demoEnv (emptySched 5000) 9 1000 1).1 (Or.inr (by decide)),
    (rules_timer_index_check demoEnv (emptySched 5000) 8 1000 1).2 ⟨by decide, by decide⟩⟩

/-! ### Deferred event queue -/

theorem and_255 (x : Nat) : x &&& 255 = x % 256 :=
  Nat.and_pow_two_sub_one_eq_mod x 8

theorem createSystemEventMixedId_decode (p i f : Nat) (hp : p < 256) (hi : i < 256)
    (hf : f < 256) :
    createSystemEventMixedId p i f &&& 255 = f
    ∧ (createSystemEventMixedId p i f >>> 8) &&& 255 = i
    ∧ (createSystemEventMixedId p i f >>> 16) &&& 255 = p := by
  simp only [createSystemEventMixedId, getMixedId, SYSTEM_EVENT_QUEUE, TIMER_ID_SHIFT,
    Nat.shiftLeft_eq, Nat.shiftRight_eq_div_pow, and_255]
  refine ⟨?_, ?_, ?_⟩ <;> omega

theorem process_system_event_queue_front (env : Env) (hext : ∀ c s, env.ext c s = s)
    (s : Sched) (e : DeferredEvent) (rest : List (Nat × EventStruct))
    (he : e.wellTyped) (hq : s.ScheduledEventQueue = e.entry :: rest) :
    process_system_event_queue env s
      = { s with ScheduledEventQueue := rest, trace := s.trace ++ e.dispatch } := by
  obtain ⟨hp, hi, hf⟩ := he
  have hp' : e.ptr_type < 256 := by
    rcases hp with h | h | h <;> rw [h] <;> decide
  obtain ⟨d1, d2, d3⟩ := createSystemEventMixedId_decode e.ptr_type e.Index e.Function hp' hi hf
  unfold process_system_event_queue
  rw [hq]
  simp only [DeferredEvent.entry, d1, d2, d3, call_inert env hext, DeferredEvent.dispatch]
  rcases hp with h | h | h <;>
    simp [h, hq, DeferredEvent.entry, TaskPluginEnum, ControllerPluginEnum,
      NotificationPluginEnum]

theorem scheduleEvents_queue (es : List DeferredEvent) :
    ∀ s : Sched, scheduleEvents s es
      = { s with ScheduledEventQueue := s.ScheduledEventQueue ++ es.map DeferredEvent.entry } := by
  induction es with
  | nil =>
    intro s
    simp [scheduleEvents]
  | cons e rest ih =>
    intro s
    have h := ih (schedule_event_timer s e.ptr_type e.Index e.Function e.event)
    simp only [scheduleEvents, List.foldl] at h ⊢
    rw [h]
    simp [schedule_event_timer, DeferredEvent.entry]

theorem drainQueue_take (env : Env) (hext : ∀ c s, env.ext c s = s) :
    ∀ (k : Nat) (es : List DeferredEvent) (s : Sched),
      (∀ e ∈ es, e.wellTyped) → s.ScheduledEventQueue = es.map DeferredEvent.entry →
      k ≤ es.length →
      drainQueue env k s
        = { s with
            ScheduledEventQueue := (es.drop k).map DeferredEvent.entry,
            trace := s.trace ++ (es.take k).flatMap DeferredEvent.dispatch } := by
  intro k
  induction k with
  | zero =>
    intro es s _ hq _
    simp [drainQueue, ← hq]
  | succ k ih =>
    intro es s hes hq hk
    match es, hes, hq, hk with
    | e :: rest, hes, hq, hk =>
      have hstep := process_system_event_queue_front env hext s e (rest.map DeferredEvent.entry)
        (hes e (List.mem_cons_self _ _)) (by simpa using hq)
      have hrest := ih rest (process_system_event_queue env s)
        (fun x hx => hes x (List.mem_cons_of_mem _ hx)) (by rw [hstep]) (by simpa using hk)
      simp only [drainQueue]
      rw [hrest, hstep]
      simp [List.flatMap_cons]

/-- C11: the deferred queue is strict FIFO with exactly-once dispatch. When the
well-typed events `es` are appended by `schedule_event_timer` to an empty
queue and external code leaves the scheduler alone, then after `k` calls of
`process_system_event_queue` (`k ≤ n`) exactly the first `k` events have been
dispatched, in the order of submission, and exactly the remaining ones are
queued; after `n` calls the queue is empty; a call on an empty queue changes
nothing. -/
theorem deferred_queue_fifo (env : Env) (hext : ∀ c s, env.ext c s = s) (s0 : Sched)
    (es : List DeferredEvent) (hempty : s0.ScheduledEventQueue = [])
    (hes : ∀ e ∈ es, e.wellTyped) :
    (∀ k, k ≤ es.length →
      drainQueue env k (scheduleEvents s0 es)
        = { s0 with
            ScheduledEventQueue := (es.drop k).map DeferredEvent.entry,
            trace := s0.trace ++ (es.take k).flatMap DeferredEvent.dispatch })
    ∧ (drainQueue env es.length (scheduleEvents s0 es)).ScheduledEventQueue = []
    ∧ (drainQueue env es.length (scheduleEvents s0 es)).trace
        = s0.trace ++ es.flatMap DeferredEvent.dispatch
    ∧ ∀ s : Sched, s.ScheduledEventQueue = [] → process_system_event_queue env s = s := by
  have hq : (scheduleEvents s0 es).ScheduledEventQueue = es.map DeferredEvent.entry := by
    rw [scheduleEvents_queue, hempty]
    rfl
  have hk : ∀ k, k ≤ es.length →
      drainQueue env k (scheduleEvents s0 es)
        = { s0 with
            ScheduledEventQueue := (es.drop k).map DeferredEvent.entry,
            trace := s0.trace ++ (es.take k).flatMap DeferredEvent.dispatch } := by
    intro k hk
    rw [drainQueue_take env hext k es _ hes hq hk, scheduleEvents_queue]
  refine ⟨hk, ?_, ?_, ?_⟩
  · rw [hk es.length (Nat.le_refl _)]
    simp
  · rw [hk es.length (Nat.le_refl _)]
    simp
  · intro s hs
    simp [process_system_event_queue, hs]

theorem deferred_queue_fifo_witness :
    (drainQueue demoEnv 3 (scheduleEvents (emptySched 0)
        [⟨TaskPluginEnum, 1, 3, EventStruct.fresh⟩, ⟨ControllerPluginEnum, 0, 2, EventStruct.fresh⟩,
          ⟨NotificationPluginEnum, 4, 5, EventStruct.fresh⟩])).ScheduledEventQueue = []
    ∧ (drainQueue demoEnv 3 (scheduleEvents (emptySched 0)
        [⟨TaskPluginEnum, 1, 3, EventStruct.fresh⟩, ⟨ControllerPluginEnum, 0, 2, EventStruct.fresh⟩,
          ⟨NotificationPluginEnum, 4, 5, EventStruct.fresh⟩])).trace
      = [ExtCall.LoadTaskSettings INVALID_TASK_INDEX, ExtCall.Plugin_ptr 1 3 EventStruct.fresh,
          ExtCall.CPluginCall 0 2 EventStruct.fresh, ExtCall.NPlugin_ptr 4 5 EventStruct.fresh] :=
  have h := deferred_queue_fifo demoEnv (fun _ _ => rfl) (emptySched 0)
    [⟨TaskPluginEnum, 1, 3, EventStruct.fresh⟩, ⟨ControllerPluginEnum, 0, 2, EventStruct.fresh⟩,
      ⟨NotificationPluginEnum, 4, 5, EventStruct.fresh⟩] rfl (by decide)
  ⟨h.2.1, h.2.2.1⟩

/-! ### Device-poll timer -/

theorem schedule_task_device_timer_enabled (env : Env) (s : Sched) (task runAt : Nat)
    (hvt : env.validTaskIndex task = true)
    (hvd : env.validDeviceIndex (env.getDeviceIndex_from_TaskIndex task) = true)
    (hen : env.TaskDeviceEnabled task = true) :
    schedule_task_device_timer env s task runAt
      = setNewTimerAt s (taskDeviceTimerId task) runAt := by
  simp [schedule_task_device_timer, hvt, hvd, hen, taskDeviceTimerId]

theorem process_task_device_timer_enabled (env : Env) (s : Sched) (task lasttimer : Nat)
    (hvt : env.validTaskIndex task = true)
    (hvd : env.validDeviceIndex (env.getDeviceIndex_from_TaskIndex task) = true)
    (hen : env.TaskDeviceEnabled task = true) (hpos : 0 < env.TaskDeviceTimer task) :
    process_task_device_timer env s task lasttimer
      = call env (ExtCall.SensorSendTask task)
          (setNewTimerAt s (taskDeviceTimerId task)
            ((lasttimer + 1000 * env.TaskDeviceTimer task) % 4294967296)) := by
  have hne : env.TaskDeviceTimer task ≠ 0 := by omega
  have harith : (lasttimer + env.TaskDeviceTimer task * 1000 % 4294967296) % 4294967296
      = (lasttimer + 1000 * env.TaskDeviceTimer task) % 4294967296 := by omega
  unfold process_task_device_timer
  simp only [hvt, Bool.not_true, Bool.false_eq_true, if_false, ne_eq, hne, not_false_eq_true,
    if_true, harith, schedule_task_device_timer_enabled env _ task _ hvt hvd hen]

theorem fireTaskDeviceTimer_pending (env : Env) (hext : ∀ c s, env.ext c s = s)
    (task : Nat) (s : Sched) (now t : Nat)
    (hvt : env.validTaskIndex task = true)
    (hvd : env.validDeviceIndex (env.getDeviceIndex_from_TaskIndex task) = true)
    (hen : env.TaskDeviceEnabled task = true) (hpos : 0 < env.TaskDeviceTimer task)
    (ht : lookup s.msecTimerHandler (taskDeviceTimerId task) = some t) :
    (fireTaskDeviceTimer env task s now).trace = s.trace ++ [ExtCall.SensorSendTask task]
    ∧ lookup (fireTaskDeviceTimer env task s now).msecTimerHandler (taskDeviceTimerId task)
        = some ((t + 1000 * env.TaskDeviceTimer task) % 4294967296) := by
  have ht' : getTimerForId (Sched.msecTimerHandler { s with millis := now })
      (getMixedId TASK_DEVICE_TIMER task) = some t := ht
  unfold fireTaskDeviceTimer
  simp only [ht']
  rw [process_task_device_timer_enabled env _ task t hvt hvd hen hpos, call_inert env hext]
  exact ⟨rfl, lookup_upsert_self _ _ _⟩

theorem fireTaskDeviceTimer_chain (env : Env) (hext : ∀ c s, env.ext c s = s) (task : Nat)
    (hvt : env.validTaskIndex task = true)
    (hvd : env.validDeviceIndex (env.getDeviceIndex_from_TaskIndex task) = true)
    (hen : env.TaskDeviceEnabled task = true) (hpos : 0 < env.TaskDeviceTimer task) :
    ∀ (times : List Nat) (s : Sched) (t : Nat), t < 4294967296 →
      lookup s.msecTimerHandler (taskDeviceTimerId task) = some t →
      (times.foldl (fireTaskDeviceTimer env task) s).trace
          = s.trace ++ List.replicate times.length (ExtCall.SensorSendTask task)
      ∧ lookup (times.foldl (fireTaskDeviceTimer env task) s).msecTimerHandler
          (taskDeviceTimerId task)
          = some ((t + times.length * (1000 * env.TaskDeviceTimer task)) % 4294967296) := by
  intro times
  induction times with
  | nil =>
    intro s t hlt ht
    refine ⟨by simp, ?_⟩
    simp only [List.foldl, List.length_nil, Nat.zero_mul, Nat.add_zero]
    rw [ht, Nat.mod_eq_of_lt hlt]
  | cons now rest ih =>
    intro s t _ ht
    obtain ⟨h1, h2⟩ := fireTaskDeviceTimer_pending env hext task s now t hvt hvd hen hpos ht
    obtain ⟨k1, k2⟩ := ih (fireTaskDeviceTimer env task s now) _
      (Nat.mod_lt _ (by decide)) h2
    simp only [List.foldl]
    refine ⟨?_, ?_⟩
    · rw [k1, h1]
      simp only [List.length_cons, List.replicate_succ, List.append_assoc,
        List.singleton_append]
    · rw [k2]
      congr 1
      rw [List.length_cons, Nat.add_mul, Nat.one_mul]
      generalize rest.length * (1000 * env.TaskDeviceTimer task) = X
      omega

theorem taskDeviceRun_due (env : Env) (hext : ∀ c s, env.ext c s = s) (task : Nat)
    (hvt : env.validTaskIndex task = true)
    (hvd : env.validDeviceIndex (env.getDeviceIndex_from_TaskIndex task) = true)
    (hen : env.TaskDeviceEnabled task = true) (hpos : 0 < env.TaskDeviceTimer task)
    (s0 : Sched) (S : Nat) (times : List Nat) (hS : S < 4294967296) :
    getTimerForId (taskDeviceRun env s0 task S times).msecTimerHandler (taskDeviceTimerId task)
        = some ((S + times.length * (1000 * env.TaskDeviceTimer task)) % 4294967296)
    ∧ (taskDeviceRun env s0 task S times).trace
        = s0.trace ++ List.replicate times.length (ExtCall.SensorSendTask task) := by
  have hseed : lookup (schedule_task_device_timer env s0 task S).msecTimerHandler
      (taskDeviceTimerId task) = some S := by
    rw [schedule_task_device_timer_enabled env s0 task S hvt hvd hen]
    exact lookup_upsert_self _ _ _
  have htr : (schedule_task_device_timer env s0 task S).trace = s0.trace := by
    rw [schedule_task_device_timer_enabled env s0 task S hvt hvd hen]
    rfl
  obtain ⟨k1, k2⟩ := fireTaskDeviceTimer_chain env hext task hvt hvd hen hpos times _ S hS hseed
  rw [htr] at k1
  exact ⟨k2, k1⟩

/-- C12: device-poll cadence. For a valid, enabled task with a valid device
index and interval `s > 0` seconds, `process_task_device_timer(task, lasttimer)`
registers the task's timer at `lasttimer + 1000 * s` modulo `2^32`, whatever the
clock reads, and the poll `SensorSendTask` runs on the state that already holds
this registration. Hence, with external code that leaves the scheduler alone,
after `N` fire cycles of a timer seeded at `S` exactly `N` polls have run and
the registered due time is `S + N * 1000 * s` modulo `2^32`. -/
theorem device_poll_cadence (env : Env) (task : Nat)
    (hvt : env.validTaskIndex task = true)
    (hvd : env.validDeviceIndex (env.getDeviceIndex_from_TaskIndex task) = true)
    (hen : env.TaskDeviceEnabled task = true) (hpos : 0 < env.TaskDeviceTimer task) :
    (∀ (s : Sched) (lasttimer : Nat),
      process_task_device_timer env s task lasttimer
        = call env (ExtCall.SensorSendTask task)
            (setNewTimerAt s (taskDeviceTimerId task)
              ((lasttimer + 1000 * env.TaskDeviceTimer task) % 4294967296)))
    ∧ ((∀ c s, env.ext c s = s) → ∀ (s0 : Sched) (S : Nat) (times : List Nat),
        S < 4294967296 →
        getTimerForId (taskDeviceRun env s0 task S times).msecTimerHandler
            (taskDeviceTimerId task)
          = some ((S + times.length * (1000 * env.TaskDeviceTimer task)) % 4294967296)
        ∧ (taskDeviceRun env s0 task S times).trace
          = s0.trace ++ List.replicate times.length (ExtCall.SensorSendTask task)) := by
  refine ⟨fun s lasttimer =>
    process_task_device_timer_enabled env s task lasttimer hvt hvd hen hpos, ?_⟩
  intro hext s0 S times hS
  exact taskDeviceRun_due env hext task hvt hvd hen hpos s0 S times hS

theorem device_poll_cadence_witness :
    getTimerForId (taskDeviceRun demoEnv (emptySched 0) 0 100
        [100, 60100, 120100]).msecTimerHandler (taskDeviceTimerId 0) = some 180100
    ∧ (taskDeviceRun demoEnv (emptySched 0) 0 100 [100, 60100, 120100]).trace
      = [ExtCall.SensorSendTask 0, ExtCall.SensorSendTask 0, ExtCall.SensorSendTask 0] :=
  (device_poll_cadence demoEnv 0 (by decide) (by decide) (by decide) (by decide)).2
    (fun _ _ => rfl) (emptySched 0) 100 [100, 60100, 120100] (by decide)

set_option maxRecDepth 100000 in
/-- C13, counterexample: the catch-up burst of the device-poll timer has no
bound. With the dispatch loop itself: a task polled every 60 s whose timer was
due at 0 is fired at clock reading 600000; ten calls of `handle_schedule` at
that reading run ten polls and the timer is due again. With a 60 s interval and
any `B ≤ 35000`, a lateness of `60000 * (B + 1)` ms makes the first `B + 1`
re-registered due times all due at once. And no `B` at all bounds the number
of immediate re-fires for every task, interval, due time and clock reading. -/
theorem device_poll_burst_unbounded :
    (List.count (ExtCall.SensorSendTask 0)
        ((handle_schedule demoEnv)^[10]
          { emptySched 600000 with msecTimerHandler := [(taskDeviceTimerId 0, 0)] }).trace = 10
      ∧ ((handle_schedule demoEnv)^[10]
          { emptySched 600000 with msecTimerHandler := [(taskDeviceTimerId 0, 0)] }).msecTimerHandler
        = [(taskDeviceTimerId 0, 600000)])
    ∧ (∀ B j : Nat, B ≤ 35000 → j ≤ B + 1 →
        ∃ due, getTimerForId (taskDeviceRun demoEnv (emptySched (60000 * (B + 1))) 0 0
            (List.replicate j (60000 * (B + 1)))).msecTimerHandler (taskDeviceTimerId 0)
          = some due ∧ 0 ≤ timePassedSince (60000 * (B + 1)) due)
    ∧ ¬ ∃ B : Nat, ∀ (env : Env) (s0 : Sched) (task lasttimer now : Nat),
        (∀ c s, env.ext c s = s) → env.validTaskIndex task = true →
        env.validDeviceIndex (env.getDeviceIndex_from_TaskIndex task) = true →
        env.TaskDeviceEnabled task = true → 0 < env.TaskDeviceTimer task →
        lasttimer ≤ now → now < 4294967296 →
        ∃ j, 1 ≤ j ∧ j ≤ B + 1 ∧ ∃ due,
          getTimerForId (taskDeviceRun env s0 task lasttimer
              (List.replicate j now)).msecTimerHandler (taskDeviceTimerId task) = some due
          ∧ timePassedSince now due < 0 := by
  refine ⟨⟨by decide, by decide⟩, ?_, ?_⟩
  · intro B j hB hj
    have h := taskDeviceRun_due demoEnv (fun _ _ => rfl) 0 (by decide) (by decide) (by decide)
      (by decide) (emptySched (60000 * (B + 1))) 0 (List.replicate j (60000 * (B + 1)))
      (by decide)
    refine ⟨_, h.1, ?_⟩
    have hi : demoEnv.TaskDeviceTimer 0 = 60 := rfl
    have hY : (0 + j * (1000 * 60)) % 4294967296 = 60000 * j := by
      rw [Nat.mod_eq_of_lt (by omega)]
      omega
    simp only [List.length_replicate, hi, hY, timePassedSince, i32]
    rw [Int.emod_eq_of_lt (by push_cast; omega) (by push_cast; omega)]
    push_cast
    omega
  · rintro ⟨B, h⟩
    obtain ⟨j, _, _, due, hdue, hfut⟩ := h wrapEnv (emptySched 0) 0 0 0 (fun _ _ => rfl)
      (by decide) (by decide) (by decide) (by decide) (Nat.le_refl _) (by decide)
    have hc := taskDeviceRun_due wrapEnv (fun _ _ => rfl) 0 (by decide) (by decide) (by decide)
      (by decide) (emptySched 0) 0 (List.replicate j 0) (by decide)
    rw [hc.1] at hdue
    have hi : wrapEnv.TaskDeviceTimer 0 = 536870912 := rfl
    simp only [List.length_replicate, hi, Option.some.injEq] at hdue
    subst hdue
    simp only [timePassedSince, i32] at hfut
    omega

/-- C13, amended: the burst grows with the lateness. For a valid, enabled task
with interval `s > 0` and external code that leaves the scheduler alone, `k`
consecutive fire cycles at clock reading `now` run exactly `k` polls and leave
the timer registered at `lasttimer + k * 1000 * s` modulo `2^32`; without
wraparound this due time is still due at `now` exactly when
`lasttimer + k * 1000 * s ≤ now`. So the number of immediate re-fires is the
lateness divided by the interval, with no bound independent of the lateness. -/
theorem device_poll_burst_grows (env : Env) (hext : ∀ c s, env.ext c s = s) (task : Nat)
    (hvt : env.validTaskIndex task = true)
    (hvd : env.validDeviceIndex (env.getDeviceIndex_from_TaskIndex task) = true)
    (hen : env.TaskDeviceEnabled task = true) (hpos : 0 < env.TaskDeviceTimer task)
    (s0 : Sched) (lasttimer now k : Nat) (hl : lasttimer < 4294967296) :
    getTimerForId (taskDeviceRun env s0 task lasttimer
        (List.replicate k now)).msecTimerHandler (taskDeviceTimerId task)
      = some ((lasttimer + k * (1000 * env.TaskDeviceTimer task)) % 4294967296)
    ∧ (taskDeviceRun env s0 task lasttimer (List.replicate k now)).trace
      = s0.trace ++ List.replicate k (ExtCall.SensorSendTask task)
    ∧ (lasttimer + k * (1000 * env.TaskDeviceTimer task) < 2147483648 → now < 2147483648 →
        (0 ≤ timePassedSince now
            ((lasttimer + k * (1000 * env.TaskDeviceTimer task)) % 4294967296)
          ↔ lasttimer + k * (1000 * env.TaskDeviceTimer task) ≤ now)) := by
  have h := taskDeviceRun_due env hext task hvt hvd hen hpos s0 lasttimer
    (List.replicate k now) hl
  simp only [List.length_replicate] at h
  refine ⟨h.1, h.2, ?_⟩
  generalize k * (1000 * env.TaskDeviceTimer task) = X
  intro hX hnow
  rw [Nat.mod_eq_of_lt (by omega)]
  simp only [timePassedSince, i32]
  rw [Int.emod_eq_of_lt (by push_cast; omega) (by push_cast; omega)]
  push_cast
  omega

theorem device_poll_burst_grows_witness :
    getTimerForId (taskDeviceRun demoEnv (emptySched 600000) 0 0
        (List.replicate 10 600000)).msecTimerHandler (taskDeviceTimerId 0) = some 600000
    ∧ 0 ≤ timePassedSince 600000 600000 :=
  have h := device_poll_burst_grows demoEnv (fun _ _ => rfl) 0 (by decide) (by decide)
    (by decide) (by decide) (emptySched 600000) 0 600000 10 (by decide)
  ⟨h.1, (h.2.2 (by decide) (by decide)).2 (by decide)⟩

/-! ### Rules timer: overwriting, disabling, paused firing -/

theorem countKey_upsert_self {α : Type} (m : List (Nat × α)) (k : Nat) (v : α)
    (h : countKey m k ≤ 1) : countKey (upsert m k v) k = 1 := by
  induction m with
  | nil => simp [upsert, countKey]
  | cons p rest ih =>
    obtain ⟨k0, v0⟩ := p
    by_cases hk : k0 = k
    · subst hk
      simp only [countKey, List.filter_cons, beq_self_eq_true, if_true, List.length_cons] at h
      simp only [upsert, if_true, countKey, List.filter_cons, beq_self_eq_true,
        List.length_cons]
      omega
    · have hb : (k0 == k) = false := by simpa using hk
      simp only [countKey, List.filter_cons, hb, Bool.false_eq_true, if_false] at h
      simp only [upsert, hk, if_false, countKey, List.filter_cons, hb, Bool.false_eq_true]
      exact ih h

/-- C14: setting a rules timer overwrites and never duplicates. For a valid
timer index, `setRulesTimer(d1, i, c1)` followed by `setRulesTimer(d2, i, c2)`
at the same clock reading gives exactly the result and state of the single call
`setRulesTimer(d2, i, c2)`: the registry holds the due time `now + d2`, the
store the record built from `(d2, c2)` with pause remainder 0, and each holds
one entry for the identifier when it held at most one before. -/
theorem setRulesTimer_overwrites (env : Env) (s : Sched) (timerIndex d1 d2 : Nat)
    (c1 c2 : Int) (hv : checkRulesTimerIndex env timerIndex = true) :
    setRulesTimer env (setRulesTimer env s d1 timerIndex c1).2 d2 timerIndex c2
      = setRulesTimer env s d2 timerIndex c2
    ∧ getTimerForId
        (setRulesTimer env (setRulesTimer env s d1 timerIndex c1).2 d2 timerIndex
          c2).2.msecTimerHandler (rulesTimerId timerIndex)
      = some ((s.millis + d2) % 4294967296)
    ∧ lookup
        (setRulesTimer env (setRulesTimer env s d1 timerIndex c1).2 d2 timerIndex
          c2).2.systemTimers (rulesTimerId timerIndex)
      = some (rulesTimerData d2 timerIndex c2)
    ∧ (rulesTimerData d2 timerIndex c2).Par4 = 0
    ∧ (countKey s.msecTimerHandler (rulesTimerId timerIndex) ≤ 1 →
        countKey
          (setRulesTimer env (setRulesTimer env s d1 timerIndex c1).2 d2 timerIndex
            c2).2.msecTimerHandler (rulesTimerId timerIndex) = 1)
    ∧ (countKey s.systemTimers (rulesTimerId timerIndex) ≤ 1 →
        countKey
          (setRulesTimer env (setRulesTimer env s d1 timerIndex c1).2 d2 timerIndex
            c2).2.systemTimers (rulesTimerId timerIndex) = 1) := by
  have heq : setRulesTimer env (setRulesTimer env s d1 timerIndex c1).2 d2 timerIndex c2
      = setRulesTimer env s d2 timerIndex c2 := by
    simp only [setRulesTimer_valid env _ _ timerIndex _ hv, setNewTimerAt, storeTimer,
      registerAt, upsert_upsert]
  rw [heq, setRulesTimer_valid env s d2 timerIndex c2 hv]
  refine ⟨rfl, lookup_upsert_self _ _ _, lookup_upsert_self _ _ _, rfl, ?_, ?_⟩
  · intro h
    exact countKey_upsert_self _ _ _ h
  · intro h
    exact countKey_upsert_self _ _ _ h

theorem setRulesTimer_overwrites_witness :
    setRulesTimer demoEnv (setRulesTimer demoEnv (emptySched 5000) 1000 1 3).2 250 1 0
      = setRulesTimer demoEnv (emptySched 5000) 250 1 0
    ∧ (setRulesTimer demoEnv (setRulesTimer demoEnv (emptySched 5000) 1000 1 3).2 250 1
        0).2.msecTimerHandler = [(rulesTimerId 1, 5250)] :=
  ⟨(setRulesTimer_overwrites demoEnv (emptySched 5000) 1 1000 250 3 0 (by decide)).1,
    by decide⟩

theorem process_rules_timer_disarmed (env : Env) (s : Sched) (id lasttimer : Nat)
    (d : systemTimerStruct)
    (h : lookup s.systemTimers (getMixedId RULES_TIMER id) = some d) (h4 : d.Par4 = 0)
    (h1 : d.Par1 = 0) (h5 : d.Par5 = 0) :
    process_rules_timer env s id lasttimer = eraseTimer s (getMixedId RULES_TIMER id) := by
  unfold process_rules_timer
  simp only [readTimer_of_lookup _ _ _ h, touchTimer_of_lookup _ _ _ h, ne_eq, h4,
    not_true_eq_false, if_false, h1, gt_iff_lt, h5, Int.lt_irrefl]

/-- C15: disabling a rules timer. For a valid timer index, any recurring count
and any prior state, `setRulesTimer(0, i, count)` returns true, stores a
non-recurring (`Par1 = 0`), non-paused (`Par4 = 0`), disarmed (`Par5 = 0`)
record and registers the due time `now`; the next firing delivers no rule
event, erases the store entry and registers no further due time. -/
theorem setRulesTimer_zero_disables (env : Env) (s : Sched) (timerIndex : Nat)
    (recurringCount : Int) (now : Nat) (hv : checkRulesTimerIndex env timerIndex = true) :
    (setRulesTimer env s 0 timerIndex recurringCount).1 = true
    ∧ lookup (setRulesTimer env s 0 timerIndex recurringCount).2.systemTimers
        (rulesTimerId timerIndex)
      = some { TaskIndex := INVALID_TASK_INDEX, Par1 := 0, Par2 := 0, Par3 := i32 timerIndex,
               Par4 := 0, Par5 := 0 }
    ∧ getTimerForId (setRulesTimer env s 0 timerIndex recurringCount).2.msecTimerHandler
        (rulesTimerId timerIndex) = some (s.millis % 4294967296)
    ∧ (fireRulesTimer env timerIndex (setRulesTimer env s 0 timerIndex recurringCount).2
        now).trace = s.trace
    ∧ lookup (fireRulesTimer env timerIndex
        (setRulesTimer env s 0 timerIndex recurringCount).2 now).systemTimers
        (rulesTimerId timerIndex) = none
    ∧ getTimerForId (fireRulesTimer env timerIndex
        (setRulesTimer env s 0 timerIndex recurringCount).2 now).msecTimerHandler
        (rulesTimerId timerIndex) = none := by
  have hdata : rulesTimerData 0 timerIndex recurringCount
      = { TaskIndex := INVALID_TASK_INDEX, Par1 := 0, Par2 := 0, Par3 := i32 timerIndex,
          Par4 := 0, Par5 := 0 } := by
    simp [rulesTimerData, i32]
  have hstore : lookup (setRulesTimer env s 0 timerIndex recurringCount).2.systemTimers
      (rulesTimerId timerIndex) = some (rulesTimerData 0 timerIndex recurringCount) := by
    rw [setRulesTimer_valid env s 0 timerIndex recurringCount hv]
    exact lookup_upsert_self _ _ _
  have hreg : lookup (setRulesTimer env s 0 timerIndex recurringCount).2.msecTimerHandler
      (rulesTimerId timerIndex) = some ((s.millis + 0) % 4294967296) := by
    rw [setRulesTimer_valid env s 0 timerIndex recurringCount hv]
    exact lookup_upsert_self _ _ _
  have htr : (setRulesTimer env s 0 timerIndex recurringCount).2.trace = s.trace := by
    rw [setRulesTimer_valid env s 0 timerIndex recurringCount hv]
    rfl
  have hd' : lookup (Sched.systemTimers
      { (setRulesTimer env s 0 timerIndex recurringCount).2 with
        millis := now,
        msecTimerHandler := erase
          (setRulesTimer env s 0 timerIndex recurringCount).2.msecTimerHandler
          (rulesTimerId timerIndex) })
      (getMixedId RULES_TIMER (createRulesTimerId timerIndex))
      = some (rulesTimerData 0 timerIndex recurringCount) := hstore
  have hfire := fireRulesTimer_pending env timerIndex
    (setRulesTimer env s 0 timerIndex recurringCount).2 now _ hreg
  rw [process_rules_timer_disarmed env _ _ _ _ hd' rfl (by rw [hdata]) (by rw [hdata])]
    at hfire
  refine ⟨?_, ?_, hreg, ?_, ?_, ?_⟩
  · rw [setRulesTimer_valid env s 0 timerIndex recurringCount hv]
  · rw [hstore, hdata]
  · rw [hfire]
    exact htr
  · rw [hfire]
    exact lookup_erase_self _ _
  · rw [hfire]
    exact lookup_erase_self _ _

theorem setRulesTimer_zero_disables_witness :
    (fireRulesTimer demoEnv 1
        (setRulesTimer demoEnv (rulesTimerPaused demoEnv (emptySched 5000) 1000 1 3 300).2 0 1
          5).2 5400).trace = []
    ∧ lookup (fireRulesTimer demoEnv 1
        (setRulesTimer demoEnv (rulesTimerPaused demoEnv (emptySched 5000) 1000 1 3 300).2 0 1
          5).2 5400).systemTimers (rulesTimerId 1) = none :=
  have h := setRulesTimer_zero_disables demoEnv
    (rulesTimerPaused demoEnv (emptySched 5000) 1000 1 3 300).2 1 5 5400 (by decide)
  ⟨h.2.2.2.1.trans (by decide), h.2.2.2.2.1⟩

/-- C16: firing a paused rules timer does not execute it. For every store
entry of a rules timer whose pause remainder `Par4` is not 0,
`process_rules_timer` delivers no event, leaves the store (every field of the
entry included) unchanged and registers the timer at `now + 1000` modulo
`2^32`; nothing else changes. -/
theorem paused_rules_timer_not_executed (env : Env) (s : Sched) (id lasttimer : Nat)
    (d : systemTimerStruct)
    (h : lookup s.systemTimers (getMixedId RULES_TIMER id) = some d) (h4 : d.Par4 ≠ 0) :
    process_rules_timer env s id lasttimer
      = setNewTimerAt s (getMixedId RULES_TIMER id) ((s.millis + 1000) % 4294967296)
    ∧ (process_rules_timer env s id lasttimer).trace = s.trace
    ∧ (process_rules_timer env s id lasttimer).systemTimers = s.systemTimers
    ∧ lookup (process_rules_timer env s id lasttimer).systemTimers (getMixedId RULES_TIMER id)
        = some d
    ∧ getTimerForId (process_rules_timer env s id lasttimer).msecTimerHandler
        (getMixedId RULES_TIMER id) = some ((s.millis + 1000) % 4294967296) := by
  rw [process_rules_timer_paused env s id lasttimer d h h4]
  exact ⟨rfl, rfl, rfl, h, lookup_upsert_self _ _ _⟩

theorem paused_rules_timer_not_executed_witness :
    (process_rules_timer demoEnv
        { (rulesTimerPaused demoEnv (emptySched 5000) 1000 1 3 300).2 with millis := 6000 }
        (createRulesTimerId 1) 6000).trace = []
    ∧ getTimerForId (process_rules_timer demoEnv
        { (rulesTimerPaused demoEnv (emptySched 5000) 1000 1 3 300).2 with millis := 6000 }
        (createRulesTimerId 1) 6000).msecTimerHandler (rulesTimerId 1) = some 7000 :=
  have h := paused_rules_timer_not_executed demoEnv
    { (rulesTimerPaused demoEnv (emptySched 5000) 1000 1 3 300).2 with millis := 6000 }
    (createRulesTimerId 1) 6000
    { TaskIndex := INVALID_TASK_INDEX, Par1 := 2, Par2 := 1000, Par3 := 1, Par4 := 700,
      Par5 := 1 } (by decide) (by decide)
  ⟨h.2.1, h.2.2.2.2⟩

/-! ### The dispatch loop -/

theorem process_interval_timer_queue (env : Env) (hext : ∀ c s, env.ext c s = s) (s : Sched)
    (id timer : Nat) :
    (process_interval_timer env s id timer).ScheduledEventQueue = s.ScheduledEventQueue := by
  simp only [process_interval_timer, runActivity, setIntervalTimer, setNewTimerAt,
    call_inert env hext]
  split_ifs <;> rfl

theorem process_plugin_task_timer_queue (env : Env) (hext : ∀ c s, env.ext c s = s)
    (s : Sched) (id : Nat) :
    (process_plugin_task_timer env s id).ScheduledEventQueue = s.ScheduledEventQueue := by
  simp only [process_plugin_task_timer, eraseTimer, call_inert env hext]
  split_ifs <;> rfl

theorem process_plugin_timer_queue (env : Env) (hext : ∀ c s, env.ext c s = s)
    (s : Sched) (id : Nat) :
    (process_plugin_timer env s id).ScheduledEventQueue = s.ScheduledEventQueue := by
  simp only [process_plugin_timer, eraseTimer, call_inert env hext]
  split_ifs <;> rfl

theorem process_rules_timer_queue (env : Env) (hext : ∀ c s, env.ext c s = s)
    (s : Sched) (id timer : Nat) :
    (process_rules_timer env s id timer).ScheduledEventQueue = s.ScheduledEventQueue := by
  simp only [process_rules_timer, eraseTimer, storeTimer, setNewTimerAt, call_inert env hext]
  split_ifs <;> rfl

theorem process_task_device_timer_queue (env : Env) (hext : ∀ c s, env.ext c s = s)
    (s : Sched) (id timer : Nat) :
    (process_task_device_timer env s id timer).ScheduledEventQueue = s.ScheduledEventQueue := by
  simp only [process_task_device_timer, schedule_task_device_timer, setNewTimerAt,
    call_inert env hext]
  split_ifs <;> rfl

theorem routeTimer_queue (env : Env) (hext : ∀ c s, env.ext c s = s) (s : Sched)
    (timerType id timer : Nat) :
    (routeTimer env s timerType id timer).ScheduledEventQueue = s.ScheduledEventQueue := by
  unfold routeTimer
  split_ifs
  · exact process_interval_timer_queue env hext s id timer
  · exact process_plugin_task_timer_queue env hext s id
  · exact process_plugin_timer_queue env hext s id
  · exact process_rules_timer_queue env hext s id timer
  · exact process_task_device_timer_queue env hext s id timer
  · simp only [process_gpio_timer, call_inert env hext]
  · rfl

theorem process_system_event_queue_inert (env : Env) (hext : ∀ c s, env.ext c s = s)
    (s : Sched) :
    process_system_event_queue env s
      = { s with
          ScheduledEventQueue := s.ScheduledEventQueue.tail,
          trace := s.trace ++ frontCalls s.ScheduledEventQueue } := by
  unfold process_system_event_queue
  cases hq : s.ScheduledEventQueue with
  | nil =>
    cases s
    simp_all [frontCalls]
  | cons p rest =>
    obtain ⟨id, event⟩ := p
    simp only [call_inert env hext, frontCalls]
    split_ifs <;> simp [hq]

theorem frontCalls_entry (e : DeferredEvent) (rest : List (Nat × EventStruct))
    (he : e.wellTyped) : frontCalls (e.entry :: rest) = e.dispatch := by
  obtain ⟨hp, hi, hf⟩ := he
  have hp' : e.ptr_type < 256 := by
    rcases hp with h | h | h <;> rw [h] <;> decide
  obtain ⟨d1, d2, d3⟩ := createSystemEventMixedId_decode e.ptr_type e.Index e.Function hp' hi hf
  simp only [frontCalls, DeferredEvent.entry, d1, d2, d3, DeferredEvent.dispatch]

theorem handle_schedule_idle (env : Env) (hext : ∀ c s, env.ext c s = s) (s : Sched)
    (reg : List (Nat × Nat)) (timer : Nat)
    (hnext : (if timePassedSince s.millis s.last_system_event_run < 500 then
        getNextId s.millis s.msecTimerHandler else (0, 0, s.msecTimerHandler))
      = (0, timer, reg)) :
    handle_schedule env s
      = { s with
          msecTimerHandler := reg,
          lastMixedSchedulerId := 0,
          ScheduledEventQueue := s.ScheduledEventQueue.tail,
          last_system_event_run := s.millis,
          trace := s.trace ++ rtcCalls s 0 ++ [ExtCall.backgroundtasks]
            ++ frontCalls s.ScheduledEventQueue } := by
  unfold handle_schedule
  simp only [hnext, if_true, call_inert env hext, process_system_event_queue_inert env hext,
    rtcCalls]
  by_cases h0 : s.lastMixedSchedulerId = 0
  · simp [h0]
  · simp [h0]

theorem handle_schedule_timer (env : Env) (hext : ∀ c s, env.ext c s = s) (s : Sched)
    (reg : List (Nat × Nat)) (mixed timer : Nat) (hm : mixed ≠ 0)
    (hnext : (if timePassedSince s.millis s.last_system_event_run < 500 then
        getNextId s.millis s.msecTimerHandler else (0, 0, s.msecTimerHandler))
      = (mixed, timer, reg)) :
    (handle_schedule env s).ScheduledEventQueue = s.ScheduledEventQueue := by
  unfold handle_schedule
  simp only [hnext, hm, if_false, call_inert env hext, routeTimer_queue env hext]
  split_ifs <;> rfl

/-- C17: the throttle of the dispatch loop, with external code that leaves the
scheduler alone. In a call of `handle_schedule` in which at least 500 ms have
passed since `last_system_event_run`, the registry and the store are untouched
(no timer is taken or handled, due or not), the calls made are those of the
idle path only: the RTC mirror if the mirrored id was not 0, the background
tasks and the callbacks of the front queue entry, which is removed (for a
well-typed event exactly its one dispatch), and `last_system_event_run` becomes
the clock reading. In every call, either the deferred queue is untouched (no
deferred dispatch) or the store is untouched and the calls made are those of
the idle path (no timer handler). -/
theorem handle_schedule_throttle (env : Env) (hext : ∀ c s, env.ext c s = s) (s : Sched) :
    (¬ (timePassedSince s.millis s.last_system_event_run < 500) →
      (handle_schedule env s).msecTimerHandler = s.msecTimerHandler
      ∧ (handle_schedule env s).systemTimers = s.systemTimers
      ∧ (handle_schedule env s).ScheduledEventQueue = s.ScheduledEventQueue.tail
      ∧ (handle_schedule env s).trace
          = s.trace ++ rtcCalls s 0 ++ [ExtCall.backgroundtasks]
            ++ frontCalls s.ScheduledEventQueue
      ∧ (∀ (e : DeferredEvent) (rest : List (Nat × EventStruct)), e.wellTyped →
          s.ScheduledEventQueue = e.entry :: rest →
          (handle_schedule env s).trace
              = s.trace ++ rtcCalls s 0 ++ [ExtCall.backgroundtasks] ++ e.dispatch
            ∧ (handle_schedule env s).ScheduledEventQueue = rest)
      ∧ (handle_schedule env s).last_system_event_run = s.millis)
    ∧ ((handle_schedule env s).ScheduledEventQueue = s.ScheduledEventQueue
      ∨ ((handle_schedule env s).systemTimers = s.systemTimers
        ∧ (handle_schedule env s).trace
            = s.trace ++ rtcCalls s 0 ++ [ExtCall.backgroundtasks]
              ++ frontCalls s.ScheduledEventQueue)) := by
  constructor
  · intro hthr
    have hnext : (if timePassedSince s.millis s.last_system_event_run < 500 then
        getNextId s.millis s.msecTimerHandler else (0, 0, s.msecTimerHandler))
        = (0, 0, s.msecTimerHandler) := by simp [hthr]
    rw [handle_schedule_idle env hext s _ _ hnext]
    refine ⟨rfl, rfl, rfl, rfl, ?_, rfl⟩
    intro e rest he hq
    simp only [hq, frontCalls_entry e rest he, List.tail_cons, and_self]
  · cases hnext : (if timePassedSince s.millis s.last_system_event_run < 500 then
        getNextId s.millis s.msecTimerHandler else (0, 0, s.msecTimerHandler)) with
    | mk mixed rest =>
      obtain ⟨timer, reg⟩ := rest
      by_cases hm : mixed = 0
      · subst hm
        right
        rw [handle_schedule_idle env hext s _ _ hnext]
        exact ⟨rfl, rfl⟩
      · left
        exact handle_schedule_timer env hext s reg mixed timer hm hnext

theorem handle_schedule_throttle_witness :
    (handle_schedule demoEnv
        { scheduleEvents (emptySched 5000) [⟨ControllerPluginEnum, 0, 2, EventStruct.fresh⟩] with
          millis := 5600, msecTimerHandler := [(rulesTimerId 1, 5100)] }).msecTimerHandler
      = [(rulesTimerId 1, 5100)]
    ∧ (handle_schedule demoEnv
        { scheduleEvents (emptySched 5000) [⟨ControllerPluginEnum, 0, 2, EventStruct.fresh⟩] with
          millis := 5600, msecTimerHandler := [(rulesTimerId 1, 5100)] }).trace
      = [ExtCall.backgroundtasks, ExtCall.CPluginCall 0 2 EventStruct.fresh]
    ∧ (handle_schedule demoEnv
        { scheduleEvents (emptySched 5000) [⟨ControllerPluginEnum, 0, 2, EventStruct.fresh⟩] with
          millis := 5600, msecTimerHandler := [(rulesTimerId 1, 5100)] }).last_system_event_run
      = 5600 :=
  have h := (handle_schedule_throttle demoEnv (fun _ _ => rfl)
    { scheduleEvents (emptySched 5000) [⟨ControllerPluginEnum, 0, 2, EventStruct.fresh⟩] with
      millis := 5600, msecTimerHandler := [(rulesTimerId 1, 5100)] }).1 (by decide)
  ⟨h.1, h.2.2.2.1, h.2.2.2.2.2⟩

/-! ### Packed sub-ids: GPIO and plugin timers -/

theorem packed_id_value (d : Nat) (p : Int) (hd : d < 256) :
    ((u32 (i32 (i32 (p * 256) + (d : Int))) &&& idMask : Nat) : Int)
      = (p % 1048576) * 256 + (d : Int) := by
  have hmask : idMask = 2 ^ 28 - 1 := by decide
  rw [hmask, Nat.and_pow_two_sub_one_eq_mod]
  unfold u32 i32
  omega

theorem createGPIOTimerId_value (pin level : Nat) (hpin : pin < 256) (hlevel : level < 256) :
    createGPIOTimerId pin (level : Int) = level * 256 + pin := by
  have h := packed_id_value pin (level : Int) hpin
  unfold createGPIOTimerId
  simp only
  omega

/-- C18: GPIO timer round trip. For every pin and target level in `0..255`,
`setGPIOTimer(msecFromNow, pin, level, ...)` registers the identifier of
category `GPIO_TIMER` with sub-id `level * 256 + pin` at `now + msecFromNow`
modulo `2^32`; the dispatch switch routes this identifier to
`process_gpio_timer`, which makes the one call `digitalWrite(pin, level)` and
nothing else: with external code that leaves the scheduler alone the registry
and the store are unchanged. -/
theorem gpio_timer_round_trip (env : Env) (s : Sched) (msecFromNow pin level : Nat)
    (hpin : pin < 256) (hlevel : level < 256) :
    setGPIOTimer s msecFromNow (pin : Int) (level : Int)
      = setNewTimerAt s (getMixedId GPIO_TIMER (level * 256 + pin))
          ((s.millis + msecFromNow) % 4294967296)
    ∧ decodeSchedulerId (getMixedId GPIO_TIMER (level * 256 + pin))
      = (level * 256 + pin, GPIO_TIMER)
    ∧ (∀ (s1 : Sched) (timer : Nat),
        routeTimer env s1 (decodeSchedulerId (getMixedId GPIO_TIMER (level * 256 + pin))).2
            (decodeSchedulerId (getMixedId GPIO_TIMER (level * 256 + pin))).1 timer
          = call env (ExtCall.digitalWrite pin level) s1)
    ∧ ((∀ c s, env.ext c s = s) → ∀ (s1 : Sched) (timer : Nat),
        routeTimer env s1 (decodeSchedulerId (getMixedId GPIO_TIMER (level * 256 + pin))).2
            (decodeSchedulerId (getMixedId GPIO_TIMER (level * 256 + pin))).1 timer
          = { s1 with trace := s1.trace ++ [ExtCall.digitalWrite pin level] }) := by
  have hmask : idMask = 2 ^ 28 - 1 := by decide
  have hdec : decodeSchedulerId (getMixedId GPIO_TIMER (level * 256 + pin))
      = (level * 256 + pin, GPIO_TIMER) := by
    simp only [decodeSchedulerId, getMixedId, hmask, TIMER_ID_SHIFT, GPIO_TIMER,
      Nat.shiftLeft_eq, Nat.shiftRight_eq_div_pow, Nat.and_pow_two_sub_one_eq_mod]
    refine Prod.ext ?_ ?_ <;> simp only <;> omega
  have hroute : ∀ (s1 : Sched) (timer : Nat),
      routeTimer env s1 (decodeSchedulerId (getMixedId GPIO_TIMER (level * 256 + pin))).2
          (decodeSchedulerId (getMixedId GPIO_TIMER (level * 256 + pin))).1 timer
        = call env (ExtCall.digitalWrite pin level) s1 := by
    intro s1 timer
    rw [hdec]
    have h1 : (level * 256 + pin) &&& 255 = pin := by
      rw [and_255]
      omega
    have h2 : ((level * 256 + pin) >>> 8) % 256 = level := by
      rw [Nat.shiftRight_eq_div_pow]
      omega
    simp [routeTimer, GPIO_TIMER, CONST_INTERVAL_TIMER, PLUGIN_TASK_TIMER, PLUGIN_TIMER,
      RULES_TIMER, TASK_DEVICE_TIMER, process_gpio_timer, h1, h2]
  refine ⟨?_, hdec, hroute, ?_⟩
  · have hb : u32 (pin : Int) % 256 = pin := by
      unfold u32
      omega
    unfold setGPIOTimer
    simp only [hb, createGPIOTimerId_value pin level hpin hlevel]
  · intro hext s1 timer
    rw [hroute, call_inert env hext]

theorem gpio_timer_round_trip_witness :
    setGPIOTimer (emptySched 5000) 100 13 1
      = setNewTimerAt (emptySched 5000) (getMixedId GPIO_TIMER (1 * 256 + 13)) 5100
    ∧ (handle_schedule demoEnv
        { setGPIOTimer (emptySched 5000) 100 13 1 with millis := 5100 }).trace
      = [ExtCall.saveToRTC, ExtCall.yield, ExtCall.digitalWrite 13 1] :=
  ⟨(gpio_timer_round_trip demoEnv (emptySched 5000) 100 13 1 (by decide) (by decide)).1,
    by decide⟩

theorem createPluginTimerId_low_byte (d : Nat) (p : Int) (hd : d < 256) :
    ((1 <<< 8) - 1) &&& createPluginTimerId d p = d := by
  have h := packed_id_value d p hd
  have h255 : (1 <<< 8) - 1 = 255 := by decide
  rw [h255, Nat.land_comm, and_255]
  unfold createPluginTimerId
  simp only
  omega

/-- C19: plugin timer payload round trip with erase before invoke. For a
plugin with a valid device index `d < 256` and all `Par1..Par5`: after
`setPluginTimer(ms, pluginID, Par1..Par5)`, `process_plugin_timer` applied to
the sub-id `createPluginTimerId(d, Par1)` recovers `d` from the sub-id and is
the single callback `Plugin_ptr[d](PLUGIN_ONLY_TIMER_IN, event)`, whose event
carries `Par1..Par5` as scheduled, run on the state from which the store entry
is already erased; with a callback that leaves the scheduler alone the store
has no entry for the identifier afterwards. -/
theorem plugin_timer_round_trip (env : Env) (s : Sched) (msecFromNow pluginID : Nat)
    (Par1 Par2 Par3 Par4 Par5 : Int)
    (hvd : env.validDeviceIndex (env.getDeviceIndex pluginID) = true)
    (hd : env.getDeviceIndex pluginID < 256) :
    ((1 <<< 8) - 1) &&& createPluginTimerId (env.getDeviceIndex pluginID) Par1
      = env.getDeviceIndex pluginID
    ∧ process_plugin_timer env
        (setPluginTimer env s msecFromNow pluginID Par1 Par2 Par3 Par4 Par5)
        (createPluginTimerId (env.getDeviceIndex pluginID) Par1)
      = call env
          (ExtCall.Plugin_ptr (env.getDeviceIndex pluginID) env.PLUGIN_ONLY_TIMER_IN
            { EventStruct.fresh with
              Par1 := Par1, Par2 := Par2, Par3 := Par3, Par4 := Par4, Par5 := Par5,
              Source := VALUE_SOURCE_SYSTEM })
          (eraseTimer (setPluginTimer env s msecFromNow pluginID Par1 Par2 Par3 Par4 Par5)
            (getMixedId PLUGIN_TIMER (createPluginTimerId (env.getDeviceIndex pluginID) Par1)))
    ∧ lookup
        (eraseTimer (setPluginTimer env s msecFromNow pluginID Par1 Par2 Par3 Par4 Par5)
          (getMixedId PLUGIN_TIMER
            (createPluginTimerId (env.getDeviceIndex pluginID) Par1))).systemTimers
        (getMixedId PLUGIN_TIMER (createPluginTimerId (env.getDeviceIndex pluginID) Par1))
      = none
    ∧ ((∀ c s, env.ext c s = s) →
        (process_plugin_timer env
            (setPluginTimer env s msecFromNow pluginID Par1 Par2 Par3 Par4 Par5)
            (createPluginTimerId (env.getDeviceIndex pluginID) Par1)).trace
          = s.trace ++ [ExtCall.Plugin_ptr (env.getDeviceIndex pluginID)
              env.PLUGIN_ONLY_TIMER_IN
              { EventStruct.fresh with
                Par1 := Par1, Par2 := Par2, Par3 := Par3, Par4 := Par4, Par5 := Par5,
                Source := VALUE_SOURCE_SYSTEM }]
        ∧ lookup (process_plugin_timer env
            (setPluginTimer env s msecFromNow pluginID Par1 Par2 Par3 Par4 Par5)
            (createPluginTimerId (env.getDeviceIndex pluginID) Par1)).systemTimers
            (getMixedId PLUGIN_TIMER (createPluginTimerId (env.getDeviceIndex pluginID) Par1))
          = none) := by
  have hlow := createPluginTimerId_low_byte (env.getDeviceIndex pluginID) Par1 hd
  have hset : setPluginTimer env s msecFromNow pluginID Par1 Par2 Par3 Par4 Par5
      = setNewTimerAt
          (storeTimer s
            (getMixedId PLUGIN_TIMER (createPluginTimerId (env.getDeviceIndex pluginID) Par1))
            { systemTimerStruct.fresh with
              Par1 := Par1, Par2 := Par2, Par3 := Par3, Par4 := Par4, Par5 := Par5 })
          (getMixedId PLUGIN_TIMER (createPluginTimerId (env.getDeviceIndex pluginID) Par1))
          ((s.millis + msecFromNow) % 4294967296) := by
    simp [setPluginTimer, hvd, storeTimer]
  have hlook : lookup
      (setPluginTimer env s msecFromNow pluginID Par1 Par2 Par3 Par4 Par5).systemTimers
      (getMixedId PLUGIN_TIMER (createPluginTimerId (env.getDeviceIndex pluginID) Par1))
      = some { systemTimerStruct.fresh with
          Par1 := Par1, Par2 := Par2, Par3 := Par3, Par4 := Par4, Par5 := Par5 } := by
    rw [hset]
    exact lookup_upsert_self _ _ _
  have hproc : process_plugin_timer env
        (setPluginTimer env s msecFromNow pluginID Par1 Par2 Par3 Par4 Par5)
        (createPluginTimerId (env.getDeviceIndex pluginID) Par1)
      = call env
          (ExtCall.Plugin_ptr (env.getDeviceIndex pluginID) env.PLUGIN_ONLY_TIMER_IN
            { EventStruct.fresh with
              Par1 := Par1, Par2 := Par2, Par3 := Par3, Par4 := Par4, Par5 := Par5,
              Source := VALUE_SOURCE_SYSTEM })
          (eraseTimer (setPluginTimer env s msecFromNow pluginID Par1 Par2 Par3 Par4 Par5)
            (getMixedId PLUGIN_TIMER
              (createPluginTimerId (env.getDeviceIndex pluginID) Par1))) := by
    unfold process_plugin_timer
    simp only [readTimer_of_lookup _ _ _ hlook, touchTimer_of_lookup _ _ _ hlook, hlow, hvd,
      if_true, eraseTimer]
  refine ⟨hlow, hproc, lookup_erase_self _ _, ?_⟩
  intro hext
  rw [hproc, call_inert env hext]
  refine ⟨?_, lookup_erase_self _ _⟩
  rw [hset]
  rfl

theorem plugin_timer_round_trip_witness :
    (process_plugin_timer demoEnv (setPluginTimer demoEnv (emptySched 5000) 100 7 1 2 3 4 5)
        (createPluginTimerId 7 1)).trace
      = [ExtCall.Plugin_ptr 7 22
          { EventStruct.fresh with
            Par1 := 1, Par2 := 2, Par3 := 3, Par4 := 4, Par5 := 5,
            Source := VALUE_SOURCE_SYSTEM }]
    ∧ (process_plugin_timer demoEnv (setPluginTimer demoEnv (emptySched 5000) 100 7 1 2 3 4 5)
        (createPluginTimerId 7 1)).systemTimers = [] :=
  ⟨((plugin_timer_round_trip demoEnv (emptySched 5000) 100 7 1 2 3 4 5 (by decide)
      (by decide)).2.2.2 (fun _ _ => rfl)).1, by decide⟩

/-- C20, counterexample: the device index 1 with `Par1 = 0` and with
`Par1 = 2^20` get the same plugin timer sub-id, and the same plugin task timer
sub-id: only the low 20 bits of `Par1` enter the 28 bit sub-id. -/
theorem plugin_timer_key_collision :
    createPluginTimerId 1 0 = createPluginTimerId 1 1048576
    ∧ createPluginTaskTimerId 1 0 = createPluginTaskTimerId 1 1048576
    ∧ ¬ (∀ (d d' : Nat) (p p' : Int), d < 256 → d' < 256 →
          -2147483648 ≤ p → p < 2147483648 → -2147483648 ≤ p' → p' < 2147483648 →
          createPluginTimerId d p = createPluginTimerId d' p' → d = d' ∧ p = p') := by
  refine ⟨by decide, by decide, ?_⟩
  intro h
  have := (h 1 1 0 1048576 (by decide) (by decide) (by decide) (by decide) (by decide)
    (by decide) (by decide)).2
  exact absurd this (by decide)

/-- C20, amended: device index and `Par1` modulo `2^20` form the key. For all
device indices `d, d'` in `0..255` and all `Par1` values `p, p'`, the plugin
timer sub-ids (and likewise the plugin task timer sub-ids) of `(d, p)` and
`(d', p')` are equal exactly when `d = d'` and `p ≡ p'` modulo `2^20`; so they
are a unique key for `Par1` values in `0..2^20 - 1`. -/
theorem plugin_timer_key_mod (d d' : Nat) (p p' : Int) (hd : d < 256) (hd' : d' < 256) :
    (createPluginTimerId d p = createPluginTimerId d' p'
      ↔ d = d' ∧ p % 1048576 = p' % 1048576)
    ∧ (createPluginTaskTimerId d p = createPluginTaskTimerId d' p'
      ↔ d = d' ∧ p % 1048576 = p' % 1048576)
    ∧ (0 ≤ p → p < 1048576 → 0 ≤ p' → p' < 1048576 →
        (createPluginTimerId d p = createPluginTimerId d' p' → d = d' ∧ p = p')
        ∧ (createPluginTaskTimerId d p = createPluginTaskTimerId d' p' → d = d' ∧ p = p')) := by
  have h1 := packed_id_value d p hd
  have h2 := packed_id_value d' p' hd'
  have e1 : createPluginTimerId d p = u32 (i32 (i32 (p * 256) + (d : Int))) &&& idMask := rfl
  have e2 : createPluginTimerId d' p' = u32 (i32 (i32 (p' * 256) + (d' : Int))) &&& idMask :=
    rfl
  have e3 : createPluginTaskTimerId d p = u32 (i32 (i32 (p * 256) + (d : Int))) &&& idMask :=
    rfl
  have e4 : createPluginTaskTimerId d' p'
      = u32 (i32 (i32 (p' * 256) + (d' : Int))) &&& idMask := rfl
  rw [e1, e2, e3, e4]
  generalize u32 (i32 (i32 (p * 256) + (d : Int))) &&& idMask = a at h1
  generalize u32 (i32 (i32 (p' * 256) + (d' : Int))) &&& idMask = b at h2
  have key : a = b ↔ d = d' ∧ p % 1048576 = p' % 1048576 := by
    constructor
    · intro hab
      subst hab
      constructor <;> omega
    · rintro ⟨hdd, hpp⟩
      subst hdd
      omega
  refine ⟨key, key, ?_⟩
  intro hp0 hp1 hp0' hp1'
  constructor <;>
  · intro hab
    have := key.1 hab
    constructor <;> omega

theorem plugin_timer_key_mod_witness :
    (createPluginTimerId 3 5 = createPluginTimerId 3 (5 + 1048576)
      ↔ 3 = 3 ∧ (5 : Int) % 1048576 = (5 + 1048576) % 1048576)
    ∧ createPluginTimerId 3 5 = createPluginTimerId 3 (5 + 1048576) :=
  ⟨(plugin_timer_key_mod 3 3 5 (5 + 1048576) (by decide) (by decide)).1, by decide⟩

/-! ### Deferred event tags -/

/-- C21: deferred-event tag round trip and routing. For a deferred event of
one of the three plugin classes with byte index and function code, the tag
`createSystemEventMixedId(p, Index, Function)` has category
`SYSTEM_EVENT_QUEUE`, the three fields that `process_system_event_queue`
extracts from it are `Function`, `Index` and `p`, and with the event at the
front of the queue the call removes it and makes the calls of its dispatch
(external code leaving the scheduler alone), among which exactly one is a
plugin callback: the one of family `p` at `Index` with `Function`. -/
theorem system_event_tag_round_trip (env : Env) (e : DeferredEvent) (he : e.wellTyped) :
    (decodeSchedulerId (createSystemEventMixedId e.ptr_type e.Index e.Function)).2
      = SYSTEM_EVENT_QUEUE
    ∧ createSystemEventMixedId e.ptr_type e.Index e.Function &&& 255 = e.Function
    ∧ (createSystemEventMixedId e.ptr_type e.Index e.Function >>> 8) &&& 255 = e.Index
    ∧ (createSystemEventMixedId e.ptr_type e.Index e.Function >>> 16) &&& 255 = e.ptr_type
    ∧ ((∀ c s, env.ext c s = s) → ∀ (s : Sched) (rest : List (Nat × EventStruct)),
        s.ScheduledEventQueue = e.entry :: rest →
        process_system_event_queue env s
          = { s with ScheduledEventQueue := rest, trace := s.trace ++ e.dispatch })
    ∧ e.dispatch.filter isPluginCallback = [e.callback] := by
  obtain ⟨hp, hi, hf⟩ := he
  have hp' : e.ptr_type < 256 := by
    rcases hp with h | h | h <;> rw [h] <;> decide
  have hp3 : e.ptr_type < 3 := by
    rcases hp with h | h | h <;> rw [h] <;> decide
  obtain ⟨d1, d2, d3⟩ := createSystemEventMixedId_decode e.ptr_type e.Index e.Function hp' hi hf
  refine ⟨?_, d1, d2, d3, ?_, ?_⟩
  · simp only [decodeSchedulerId, createSystemEventMixedId, getMixedId, SYSTEM_EVENT_QUEUE,
      TIMER_ID_SHIFT, Nat.shiftLeft_eq, Nat.shiftRight_eq_div_pow]
    omega
  · intro hext s rest hq
    exact process_system_event_queue_front env hext s e rest ⟨hp, hi, hf⟩ hq
  · rcases hp with h | h | h <;>
      simp [DeferredEvent.dispatch, DeferredEvent.callback, isPluginCallback, h,
        TaskPluginEnum, ControllerPluginEnum, NotificationPluginEnum]

theorem system_event_tag_round_trip_witness :
    (decodeSchedulerId (createSystemEventMixedId ControllerPluginEnum 7 9)).2
      = SYSTEM_EVENT_QUEUE
    ∧ (createSystemEventMixedId ControllerPluginEnum 7 9 >>> 16) &&& 255 = ControllerPluginEnum
    ∧ (process_system_event_queue demoEnv
        (scheduleEvents (emptySched 0) [⟨ControllerPluginEnum, 7, 9, EventStruct.fresh⟩])).trace
      = [ExtCall.CPluginCall 7 9 EventStruct.fresh] :=
  have h := system_event_tag_round_trip demoEnv ⟨ControllerPluginEnum, 7, 9, EventStruct.fresh⟩
    (by decide)
  ⟨h.1, h.2.2.2.1, by decide⟩

/-! ### Interval algorithm: wraparound -/

theorem timePassedSince_shift (now ts k : Nat) :
    timePassedSince ((now + k) % 4294967296) ((ts + k) % 4294967296)
      = timePassedSince now ts := by
  unfold timePassedSince i32
  omega

theorem timePassedSince_range (now ts : Nat) :
    -2147483648 ≤ timePassedSince now ts ∧ timePassedSince now ts < 2147483648 := by
  unfold timePassedSince i32
  omega

/-- C23: the interval algorithm is wraparound-safe. With all values taken
modulo `2^32` and `timePassedSince` the signed 32 bit difference, for every
`t`, `step`, `now` and offset `k`, `setNextTimeInterval` computed from
`(t + k, step)` at clock reading `now + k` is the result computed from
`(t, step)` at clock reading `now`, plus `k`, modulo `2^32`. -/
theorem setNextTimeInterval_shift (now t step k : Nat) :
    setNextTimeInterval ((now + k) % 4294967296) ((t + k) % 4294967296) step
      = (setNextTimeInterval now t step + k) % 4294967296 := by
  have hts : ((t + k) % 4294967296 + step) % 4294967296
      = ((t + step) % 4294967296 + k) % 4294967296 := by omega
  have hp : timePassedSince ((now + k) % 4294967296)
      (((t + k) % 4294967296 + step) % 4294967296)
      = timePassedSince now ((t + step) % 4294967296) := by
    rw [hts]
    exact timePassedSince_shift now _ k
  have hr := timePassedSince_range now ((t + step) % 4294967296)
  unfold setNextTimeInterval
  simp only [hp]
  generalize timePassedSince now ((t + step) % 4294967296) = passed at hr
  by_cases h0 : passed < 0
  · simp only [h0, if_true]
    omega
  · by_cases h1 : u32 passed > step
    · simp only [h0, h1, if_false, if_true]
      omega
    · simp only [h0, h1, if_false]
      unfold u32 at h1 ⊢
      omega

/-- C24: the interval algorithm never schedules in the past. For every `t`,
every `step < 2^31` and every `now` with `|now - (t + step)| < 2^31`, the
result `r` of `setNextTimeInterval(t, step)` satisfies `r - now ≥ 0` as signed
32 bit difference; when `t + step ≤ now` also `r - now ≤ step`; for `step > 0`
the result lies strictly in the future unless `now - (t + step) = step`, in
which case `r - now = 0`. -/
theorem setNextTimeInterval_not_in_past (now t step : Nat) (hstep : step < 2147483648)
    (hlo : -2147483648 < (now : Int) - ((t : Int) + step))
    (hhi : (now : Int) - ((t : Int) + step) < 2147483648) :
    0 ≤ timePassedSince (setNextTimeInterval now t step) now
    ∧ (t + step ≤ now → timePassedSince (setNextTimeInterval now t step) now ≤ step)
    ∧ (0 < step → (now : Int) - ((t : Int) + step) ≠ step →
        0 < timePassedSince (setNextTimeInterval now t step) now)
    ∧ ((now : Int) - ((t : Int) + step) = step →
        timePassedSince (setNextTimeInterval now t step) now = 0) := by
  have hp : timePassedSince now ((t + step) % 4294967296)
      = (now : Int) - ((t : Int) + step) := by
    unfold timePassedSince i32
    omega
  unfold setNextTimeInterval
  simp only [hp]
  by_cases h0 : (now : Int) - ((t : Int) + step) < 0
  · simp only [h0, if_true]
    unfold timePassedSince i32
    refine ⟨?_, ?_, ?_, ?_⟩ <;> omega
  · have hu : (u32 ((now : Int) - ((t : Int) + step)) : Int)
        = (now : Int) - ((t : Int) + step) := by
      unfold u32
      omega
    by_cases h1 : u32 ((now : Int) - ((t : Int) + step)) > step
    · simp only [h0, h1, if_false, if_true]
      unfold timePassedSince i32
      refine ⟨?_, ?_, ?_, ?_⟩ <;> omega
    · simp only [h0, h1, if_false, hu]
      unfold timePassedSince i32 u32
      refine ⟨?_, ?_, ?_, ?_⟩ <;> omega

theorem setNextTimeInterval_not_in_past_witness :
    0 ≤ timePassedSince (setNextTimeInterval 1120 1000 100) 1120
    ∧ timePassedSince (setNextTimeInterval 1120 1000 100) 1120 ≤ 100
    ∧ timePassedSince (setNextTimeInterval 1200 1000 100) 1200 = 0 :=
  have h := setNextTimeInterval_not_in_past 1120 1000 100 (by decide) (by decide) (by decide)
  ⟨h.1, h.2.1 (by decide),
    (setNextTimeInterval_not_in_past 1200 1000 100 (by decide) (by decide) (by decide)).2.2.2
      (by decide)⟩

/-! ### Fixed-interval timers -/

theorem intervalOf_fixedStep (s : Sched) (id step : Nat) (h : fixedStep id = some step) :
    intervalOf s id = step := by
  simp only [fixedStep, delayQueueIds, TIMER_20MSEC, TIMER_100MSEC, TIMER_1SEC, TIMER_30SEC,
    TIMER_STATISTICS, TIMER_MQTT_DELAY_QUEUE, TIMER_C001_DELAY_QUEUE, TIMER_C003_DELAY_QUEUE,
    TIMER_C004_DELAY_QUEUE, TIMER_C007_DELAY_QUEUE, TIMER_C008_DELAY_QUEUE,
    TIMER_C009_DELAY_QUEUE, TIMER_C010_DELAY_QUEUE, TIMER_C011_DELAY_QUEUE,
    TIMER_C012_DELAY_QUEUE, TIMER_C013_DELAY_QUEUE, TIMER_C014_DELAY_QUEUE,
    TIMER_C015_DELAY_QUEUE, TIMER_C016_DELAY_QUEUE, TIMER_C017_DELAY_QUEUE,
    TIMER_C018_DELAY_QUEUE, TIMER_C019_DELAY_QUEUE, TIMER_C020_DELAY_QUEUE,
    List.mem_cons, List.mem_singleton, List.not_mem_nil, or_false] at h
  simp only [intervalOf, TIMER_20MSEC, TIMER_100MSEC, TIMER_1SEC, TIMER_30SEC,
    TIMER_STATISTICS, TIMER_MQTT, TIMER_GRATUITOUS_ARP, TIMER_MQTT_DELAY_QUEUE,
    TIMER_C020_DELAY_QUEUE]
  split_ifs at h ⊢ <;> (simp only [Option.some.injEq] at h; omega)

theorem fixedStep_le (id step : Nat) (h : fixedStep id = some step) : step ≤ 30000 := by
  unfold fixedStep at h
  split_ifs at h <;> simp only [Option.some.injEq, reduceCtorEq] at h <;> omega

theorem runActivity_registry (env : Env) (hext : ∀ c s, env.ext c s = s) (s : Sched)
    (id : Nat) : (runActivity env s id).msecTimerHandler = s.msecTimerHandler := by
  simp only [runActivity, call_inert env hext]
  split_ifs <;> rfl

theorem setNextTimeInterval_on_time (now lasttimer step : Nat)
    (h0 : 0 ≤ timePassedSince now lasttimer) (h1 : timePassedSince now lasttimer < step)
    (hstep : step < 2147483648) :
    setNextTimeInterval now lasttimer step = (lasttimer + step) % 4294967296 := by
  have hp : timePassedSince now ((lasttimer + step) % 4294967296) < 0 := by
    unfold timePassedSince i32 at h0 h1 ⊢
    omega
  unfold setNextTimeInterval
  simp only [hp, if_true]

/-- C22: fixed-interval timers reschedule themselves before running. For every
well-known activity `id` with fixed step `step`, `process_interval_timer(id,
lasttimer)` is the activity run on the state in which the identifier of
category `CONST_INTERVAL_TIMER` is already registered at
`setNextTimeInterval(lasttimer, step)`; with an activity that leaves the
scheduler alone this is the registered due time afterwards. When the timer is
fired with `0 ≤ now - lasttimer < step` (signed 32 bit difference), that due
time is `lasttimer + step` modulo `2^32`: on-time firings accumulate no
drift. -/
theorem interval_timer_reschedules_first (env : Env) (s : Sched) (id lasttimer step : Nat)
    (h : fixedStep id = some step) :
    process_interval_timer env s id lasttimer
      = runActivity env
          (setNewTimerAt s (getMixedId CONST_INTERVAL_TIMER id)
            (setNextTimeInterval s.millis lasttimer step)) id
    ∧ ((∀ c s, env.ext c s = s) →
        getTimerForId (process_interval_timer env s id lasttimer).msecTimerHandler
          (getMixedId CONST_INTERVAL_TIMER id)
          = some (setNextTimeInterval s.millis lasttimer step))
    ∧ (0 ≤ timePassedSince s.millis lasttimer → timePassedSince s.millis lasttimer < step →
        setNextTimeInterval s.millis lasttimer step = (lasttimer + step) % 4294967296) := by
  have hi := intervalOf_fixedStep s id step h
  have hle := fixedStep_le id step h
  have hproc : process_interval_timer env s id lasttimer
      = runActivity env
          (setNewTimerAt s (getMixedId CONST_INTERVAL_TIMER id)
            (setNextTimeInterval s.millis lasttimer step)) id := by
    simp only [process_interval_timer, setIntervalTimer, hi]
  refine ⟨hproc, ?_, ?_⟩
  · intro hext
    rw [hproc, runActivity_registry env hext]
    exact lookup_upsert_self _ _ _
  · intro h0 h1
    exact setNextTimeInterval_on_time s.millis lasttimer step h0 h1 (by omega)

theorem interval_timer_reschedules_first_witness :
    (process_interval_timer demoEnv (emptySched 1010) TIMER_20MSEC 1000).msecTimerHandler
      = [(getMixedId CONST_INTERVAL_TIMER TIMER_20MSEC, 1020)]
    ∧ setNextTimeInterval 1010 1000 20 = 1020 :=
  have h := interval_timer_reschedules_first demoEnv (emptySched 1010) TIMER_20MSEC 1000 20
    (by decide)
  ⟨by decide, h.2.2 (by decide) (by decide)⟩

/-! ### Rules timers: store and registry stay in step -/

theorem mem_upsert {α : Type} (m : List (Nat × α)) (k : Nat) (v : α) (p : Nat × α)
    (h : p ∈ upsert m k v) : p ∈ m ∨ p = (k, v) := by
  induction m with
  | nil =>
    simp only [upsert, List.mem_singleton] at h
    exact Or.inr h
  | cons q rest ih =>
    obtain ⟨k0, v0⟩ := q
    by_cases hk : k0 = k
    · simp only [upsert, hk, if_true, List.mem_cons] at h
      rcases h with h | h
      · exact Or.inr h
      · exact Or.inl (List.mem_cons_of_mem _ h)
    · simp only [upsert, hk, if_false, List.mem_cons] at h
      rcases h with h | h
      · exact Or.inl (by rw [h]; exact List.mem_cons_self _ _)
      · rcases ih h with h' | h'
        · exact Or.inl (List.mem_cons_of_mem _ h')
        · exact Or.inr h'

theorem mem_erase {α : Type} (m : List (Nat × α)) (k : Nat) (p : Nat × α)
    (h : p ∈ erase m k) : p ∈ m :=
  (List.mem_filter.1 h).1

theorem lookup_mem {α : Type} (m : List (Nat × α)) (k : Nat) (v : α)
    (h : lookup m k = some v) : (k, v) ∈ m := by
  induction m with
  | nil => simp [lookup] at h
  | cons q rest ih =>
    obtain ⟨k0, v0⟩ := q
    by_cases hk : k0 = k
    · simp only [lookup, hk, if_true, Option.some.injEq] at h
      rw [hk, h]
      exact List.mem_cons_self _ _
    · simp only [lookup, hk, if_false] at h
      exact List.mem_cons_of_mem _ (ih h)

theorem upsert_of_lookup {α : Type} (m : List (Nat × α)) (k : Nat) (v : α)
    (h : lookup m k = some v) : upsert m k v = m := by
  induction m with
  | nil => simp [lookup] at h
  | cons q rest ih =>
    obtain ⟨k0, v0⟩ := q
    by_cases hk : k0 = k
    · simp only [lookup, hk, if_true, Option.some.injEq] at h
      simp [upsert, hk, h]
    · simp only [lookup, hk, if_false] at h
      simp [upsert, hk, ih h]

theorem pauseFloor_nonpos (env : Env) : pauseFloor env ≤ 0 := by
  unfold pauseFloor
  split_ifs
  · exact min_le_left _ _
  · exact le_refl _

theorem pauseFloor_le_overflow (env : Env) (h : env.overflowTimeLeftPositive = true) :
    pauseFloor env ≤ env.overflowTimeLeft := by
  unfold pauseFloor
  rw [if_pos h]
  exact min_le_right _ _

theorem pauseFloor_eq_zero (env : Env)
    (h : env.overflowTimeLeftPositive = true → 0 ≤ env.overflowTimeLeft) :
    pauseFloor env = 0 := by
  unfold pauseFloor
  split_ifs with hb
  · exact min_eq_left (h hb)
  · rfl

theorem par4AtLeast_upsert (lo : Int) (st : List (Nat × systemTimerStruct)) (k : Nat)
    (v : systemTimerStruct) (h : par4AtLeast lo st) (hv : lo ≤ v.Par4) :
    par4AtLeast lo (upsert st k v) := by
  intro p hp
  rcases mem_upsert st k v p hp with h' | h'
  · exact h p h'
  · rw [h']
    exact hv

theorem par4AtLeast_erase (lo : Int) (st : List (Nat × systemTimerStruct)) (k : Nat)
    (h : par4AtLeast lo st) : par4AtLeast lo (erase st k) :=
  fun p hp => h p (mem_erase st k p hp)

theorem par4AtLeast_touch (lo : Int) (st : List (Nat × systemTimerStruct)) (k : Nat)
    (hlo : lo ≤ 0) (h : par4AtLeast lo st) : par4AtLeast lo (touchTimer st k) := by
  unfold touchTimer
  cases lookup st k with
  | none => exact par4AtLeast_upsert lo st k _ h hlo
  | some d => exact h

theorem readTimer_atLeast (lo : Int) (st : List (Nat × systemTimerStruct)) (k : Nat)
    (hlo : lo ≤ 0) (h : par4AtLeast lo st) : lo ≤ (readTimer st k).Par4 := by
  unfold readTimer
  cases hl : lookup st k with
  | none => exact hlo
  | some d => exact h (k, d) (lookup_mem st k d hl)

theorem inSync_upsert_both (st : List (Nat × systemTimerStruct)) (reg : List (Nat × Nat))
    (k : Nat) (v : systemTimerStruct) (t : Nat) (h : inSync st reg) :
    inSync (upsert st k v) (upsert reg k t) := by
  intro k'
  by_cases hk : k = k'
  · subst hk
    simp [lookup_upsert_self]
  · rw [lookup_upsert_ne _ _ _ _ hk, lookup_upsert_ne _ _ _ _ hk]
    exact h k'

theorem inSync_upsert_store (st : List (Nat × systemTimerStruct)) (reg : List (Nat × Nat))
    (k : Nat) (v : systemTimerStruct) (t : Nat) (h : inSync st reg)
    (hreg : lookup reg k = some t) : inSync (upsert st k v) reg := by
  have h' := inSync_upsert_both st reg k v t h
  rw [upsert_of_lookup reg k t hreg] at h'
  exact h'

theorem inSync_touch (st : List (Nat × systemTimerStruct)) (reg : List (Nat × Nat))
    (k : Nat) (t : Nat) (h : inSync st reg) (hreg : lookup reg k = some t) :
    inSync (touchTimer st k) reg := by
  unfold touchTimer
  cases lookup st k with
  | none => exact inSync_upsert_store st reg k _ t h hreg
  | some d => exact h

theorem inSync_erase_both (st : List (Nat × systemTimerStruct)) (reg : List (Nat × Nat))
    (k : Nat) (h : inSync st reg) : inSync (erase st k) (erase reg k) := by
  intro k'
  by_cases hk : k = k'
  · subst hk
    simp [lookup_erase_self]
  · rw [lookup_erase_ne _ _ _ hk, lookup_erase_ne _ _ _ hk]
    exact h k'

theorem inSync_reregister (st : List (Nat × systemTimerStruct)) (reg : List (Nat × Nat))
    (k : Nat) (v : systemTimerStruct) (t : Nat) (h : inSync st reg) :
    inSync (upsert st k v) (upsert (erase reg k) k t) := by
  intro k'
  by_cases hk : k = k'
  · subst hk
    simp [lookup_upsert_self]
  · rw [lookup_upsert_ne _ _ _ _ hk, lookup_upsert_ne _ _ _ _ hk, lookup_erase_ne _ _ _ hk]
    exact h k'

theorem process_rules_timer_maps (env : Env) (hext : ∀ c s, env.ext c s = s) (s : Sched)
    (id lasttimer : Nat) (d : systemTimerStruct)
    (h : lookup s.systemTimers (getMixedId RULES_TIMER id) = some d) :
    (d.Par4 ≠ 0 →
      (process_rules_timer env s id lasttimer).systemTimers = s.systemTimers
      ∧ (process_rules_timer env s id lasttimer).msecTimerHandler
        = upsert s.msecTimerHandler (getMixedId RULES_TIMER id)
            ((s.millis + 1000) % 4294967296))
    ∧ (d.Par4 = 0 → d.Par1 ≠ 0 →
      ∃ d' : systemTimerStruct, d'.Par4 = 0
        ∧ (process_rules_timer env s id lasttimer).systemTimers
          = upsert s.systemTimers (getMixedId RULES_TIMER id) d'
        ∧ (process_rules_timer env s id lasttimer).msecTimerHandler
          = upsert s.msecTimerHandler (getMixedId RULES_TIMER id)
              (setNextTimeInterval s.millis lasttimer (u32 d.Par2)))
    ∧ (d.Par4 = 0 → d.Par1 = 0 →
      (process_rules_timer env s id lasttimer).systemTimers
        = erase s.systemTimers (getMixedId RULES_TIMER id)
      ∧ (process_rules_timer env s id lasttimer).msecTimerHandler = s.msecTimerHandler) := by
  refine ⟨?_, ?_, ?_⟩
  · intro h4
    rw [process_rules_timer_paused env s id lasttimer d h h4]
    exact ⟨rfl, rfl⟩
  · intro h4 h1
    unfold process_rules_timer
    simp only [readTimer_of_lookup _ _ _ h, touchTimer_of_lookup _ _ _ h, ne_eq, h4,
      not_true_eq_false, if_false, h1, not_false_eq_true, if_true, gt_iff_lt,
      call_inert env hext, setNewTimerAt, storeTimer, registerAt]
    by_cases hp1 : 0 < d.Par1 <;> by_cases hp5 : 0 < d.Par5 <;> by_cases hU : env.UseRules = true
    all_goals
      simp only [hp1, hp5, hU, if_true, if_false, readTimer_upsert_self, upsert_upsert,
        readTimer_of_lookup _ _ _ h, Bool.false_eq_true]
    all_goals first
      | (refine ⟨_, ?_, rfl, trivial⟩; first | rfl | exact h4)
      | exact ⟨d, h4, (upsert_of_lookup _ _ _ h).symm, trivial⟩
  · intro h4 h1
    unfold process_rules_timer
    simp only [readTimer_of_lookup _ _ _ h, touchTimer_of_lookup _ _ _ h, ne_eq, h4,
      not_true_eq_false, if_false, h1, gt_iff_lt, call_inert env hext, eraseTimer]
    split_ifs <;> exact ⟨rfl, rfl⟩

theorem rulesInvariant_set (env : Env) (s : Sched) (msecFromNow timerIndex : Nat)
    (recurringCount : Int) (h : rulesInvariant env s) :
    rulesInvariant env (setRulesTimer env s msecFromNow timerIndex recurringCount).2 := by
  by_cases hv : checkRulesTimerIndex env timerIndex = true
  · rw [setRulesTimer_valid env s msecFromNow timerIndex recurringCount hv]
    exact ⟨inSync_upsert_both _ _ _ _ _ h.1,
      par4AtLeast_upsert _ _ _ _ h.2 (pauseFloor_nonpos env)⟩
  · have hs : setRulesTimer env s msecFromNow timerIndex recurringCount = (false, s) := by
      simp [setRulesTimer, hv]
    rw [hs]
    exact h

theorem rulesInvariant_pause (env : Env) (s : Sched) (timerIndex : Nat)
    (h : rulesInvariant env s) :
    rulesInvariant env (pause_rules_timer env s timerIndex).2 := by
  cases hdue : getTimerForId s.msecTimerHandler (rulesTimerId timerIndex) with
  | none =>
    rw [pause_rules_timer_absent env s timerIndex hdue]
    exact h
  | some due =>
    by_cases hv : checkRulesTimerIndex env timerIndex = true
    · have htouch : rulesInvariant env
          { s with systemTimers := touchTimer s.systemTimers (rulesTimerId timerIndex) } :=
        ⟨inSync_touch _ _ _ due h.1 hdue, par4AtLeast_touch _ _ _ (pauseFloor_nonpos env) h.2⟩
      rw [pause_rules_timer_registered env s timerIndex due hv hdue]
      split_ifs with h4 hov hb hpos
      · exact ⟨inSync_upsert_store _ _ _ _ due h.1 hdue,
          par4AtLeast_upsert _ _ _ _ h.2 (pauseFloor_le_overflow env hb)⟩
      · exact htouch
      · exact ⟨inSync_upsert_store _ _ _ _ due h.1 hdue,
          par4AtLeast_upsert _ _ _ _ h.2
            (le_trans (pauseFloor_nonpos env) (Int.le_of_lt hpos))⟩
      · exact htouch
      · exact htouch
    · have hs : pause_rules_timer env s timerIndex = (false, s) := by
        simp [pause_rules_timer, hv]
      rw [hs]
      exact h

theorem rulesInvariant_resume (env : Env) (s : Sched) (timerIndex : Nat)
    (h : rulesInvariant env s) :
    rulesInvariant env (resume_rules_timer env s timerIndex).2 := by
  cases hdue : getTimerForId s.msecTimerHandler (rulesTimerId timerIndex) with
  | none =>
    rw [resume_rules_timer_absent env s timerIndex hdue]
    exact h
  | some due =>
    by_cases hv : checkRulesTimerIndex env timerIndex = true
    · rw [resume_rules_timer_pending env s timerIndex due hv hdue]
      split_ifs with h4
      · exact ⟨inSync_upsert_both _ _ _ _ _ h.1,
          par4AtLeast_upsert _ _ _ _ h.2 (pauseFloor_nonpos env)⟩
      · exact ⟨inSync_touch _ _ _ due h.1 hdue,
          par4AtLeast_touch _ _ _ (pauseFloor_nonpos env) h.2⟩
    · have hs : resume_rules_timer env s timerIndex = (false, s) := by
        simp [resume_rules_timer, hv]
      rw [hs]
      exact h

theorem rulesInvariant_fire (env : Env) (hext : ∀ c s, env.ext c s = s) (s : Sched)
    (timerIndex now : Nat) (h : rulesInvariant env s) :
    rulesInvariant env (fireRulesTimer env timerIndex s now) := by
  cases ht : lookup s.msecTimerHandler (rulesTimerId timerIndex) with
  | none =>
    have hs : fireRulesTimer env timerIndex s now = { s with millis := now } := by
      unfold rulesTimerId at ht
      simp only [fireRulesTimer, getTimerForId, ht]
    rw [hs]
    exact h
  | some t =>
    rw [fireRulesTimer_pending env timerIndex s now t ht]
    cases hd : lookup s.systemTimers (rulesTimerId timerIndex) with
    | none =>
      have := (h.1 (rulesTimerId timerIndex)).1 hd
      rw [ht] at this
      cases this
    | some d =>
      have hd' : lookup (Sched.systemTimers
          { s with
            millis := now,
            msecTimerHandler := erase s.msecTimerHandler (rulesTimerId timerIndex) })
          (getMixedId RULES_TIMER (createRulesTimerId timerIndex)) = some d := hd
      obtain ⟨m1, m2, m3⟩ := process_rules_timer_maps env hext _ _ t d hd'
      by_cases h4 : d.Par4 = 0
      · by_cases h1 : d.Par1 = 0
        · obtain ⟨e1, e2⟩ := m3 h4 h1
          unfold rulesInvariant
          rw [e1, e2]
          exact ⟨inSync_erase_both _ _ _ h.1, par4AtLeast_erase _ _ _ h.2⟩
        · obtain ⟨d', hd4, e1, e2⟩ := m2 h4 h1
          unfold rulesInvariant
          rw [e1, e2]
          exact ⟨inSync_reregister _ _ _ _ _ h.1,
            par4AtLeast_upsert _ _ _ _ h.2 (by rw [hd4]; exact pauseFloor_nonpos env)⟩
      · obtain ⟨e1, e2⟩ := m1 h4
        unfold rulesInvariant
        rw [e1, e2]
        refine ⟨?_, h.2⟩
        have hsync := inSync_reregister s.systemTimers s.msecTimerHandler
          (rulesTimerId timerIndex) d ((now + 1000) % 4294967296) h.1
        rw [upsert_of_lookup _ _ _ hd] at hsync
        exact hsync

theorem rulesInvariant_run (env : Env) (hext : ∀ c s, env.ext c s = s) :
    ∀ (ops : List (Nat × RulesOp)) (s : Sched), rulesInvariant env s →
      rulesInvariant env (runRulesOps env s ops) := by
  intro ops
  induction ops with
  | nil =>
    intro s h
    exact h
  | cons op rest ih =>
    intro s h
    obtain ⟨now, o⟩ := op
    have hstep : rulesInvariant env (applyRulesOp env s (now, o)) := by
      have hc : rulesInvariant env { s with millis := now } := h
      cases o with
      | set d i c => exact rulesInvariant_set env _ d i c hc
      | pause i => exact rulesInvariant_pause env _ i hc
      | resume i => exact rulesInvariant_resume env _ i hc
      | fire i => exact rulesInvariant_fire env hext s i now h
    exact ih _ hstep

/-- No stale rules-timer entries, whatever the build makes of the overflow in
`pause_rules_timer`. Starting from an empty registry and an empty store, after
every finite sequence of `setRulesTimer`, `pause_rules_timer`,
`resume_rules_timer` and firings by the dispatch loop, at any clock readings and
with external code that leaves the scheduler alone, the store holds an entry
for an identifier if and only if the registry holds a due time for it, and no
stored pause remainder `Par4` lies below `pauseFloor`; in a build that stores
no negative remainder at the overflow every stored pause remainder is at
least 0. -/
theorem rules_store_registry_in_sync (env : Env) (hext : ∀ c s, env.ext c s = s)
    (s0 : Sched) (ops : List (Nat × RulesOp))
    (hreg : s0.msecTimerHandler = []) (hstore : s0.systemTimers = []) :
    (∀ k, lookup (runRulesOps env s0 ops).systemTimers k ≠ none
        ↔ getTimerForId (runRulesOps env s0 ops).msecTimerHandler k ≠ none)
    ∧ (∀ timerIndex, lookup (runRulesOps env s0 ops).systemTimers (rulesTimerId timerIndex) ≠ none
        ↔ getTimerForId (runRulesOps env s0 ops).msecTimerHandler (rulesTimerId timerIndex)
          ≠ none)
    ∧ (∀ p ∈ (runRulesOps env s0 ops).systemTimers, pauseFloor env ≤ p.2.Par4)
    ∧ ((env.overflowTimeLeftPositive = true → 0 ≤ env.overflowTimeLeft) →
        ∀ p ∈ (runRulesOps env s0 ops).systemTimers, 0 ≤ p.2.Par4) := by
  have h0 : rulesInvariant env s0 := by
    unfold rulesInvariant inSync par4AtLeast
    rw [hreg, hstore]
    exact ⟨fun k => ⟨fun _ => rfl, fun _ => rfl⟩, fun p hp => by cases hp⟩
  have h := rulesInvariant_run env hext ops s0 h0
  have hk : ∀ k, lookup (runRulesOps env s0 ops).systemTimers k ≠ none
      ↔ getTimerForId (runRulesOps env s0 ops).msecTimerHandler k ≠ none :=
    fun k => not_congr (h.1 k)
  refine ⟨hk, fun i => hk (rulesTimerId i), h.2, ?_⟩
  intro hb p hp
  have hfloor := h.2 p hp
  rw [pauseFloor_eq_zero env hb] at hfloor
  exact hfloor

theorem rules_store_registry_in_sync_witness :
    (lookup (runRulesOps demoEnv (emptySched 0)
        [(0, RulesOp.set 1000 1 2), (300, RulesOp.pause 1), (1000, RulesOp.fire 1),
          (1500, RulesOp.resume 1)]).systemTimers (rulesTimerId 1) ≠ none
      ↔ getTimerForId (runRulesOps demoEnv (emptySched 0)
        [(0, RulesOp.set 1000 1 2), (300, RulesOp.pause 1), (1000, RulesOp.fire 1),
          (1500, RulesOp.resume 1)]).msecTimerHandler (rulesTimerId 1) ≠ none)
    ∧ getTimerForId (runRulesOps demoEnv (emptySched 0)
        [(0, RulesOp.set 1000 1 2), (300, RulesOp.pause 1), (1000, RulesOp.fire 1),
          (1500, RulesOp.resume 1)]).msecTimerHandler (rulesTimerId 1) = some 2200 :=
  ⟨(rules_store_registry_in_sync demoEnv (fun _ _ => rfl) (emptySched 0)
      [(0, RulesOp.set 1000 1 2), (300, RulesOp.pause 1), (1000, RulesOp.fire 1),
        (1500, RulesOp.resume 1)] rfl rfl).2.1 1, by decide⟩

end Scheduler
